import Mathlib

/-
  Verification development for the doorbell engine of
  ivanovp/esp8266_max98357a_doorbell (doorbell.cpp, fileutils.cpp, config.h).

  The embedding models Arduino String values as lists of characters,
  uint8/uint32 values as Nat with explicit reduction modulo 2^8 / 2^32 at
  the points where the C code stores into a fixed-width variable, and the
  external collaborators (millis clock, MQTT client, audio generator,
  LittleFS file system) as per-call oracle inputs carried in an
  environment record. Each tick of doorbell_task reads the clock once in
  this model; the C code calls millis several times inside one tick, but
  those calls happen within one non-blocking loop iteration.
-/

set_option maxHeartbeats 1000000

/-- Arduino String values, modelled as lists of characters. -/
abbrev AString := List Char

/-- Upper bound of uint32 values: millis timestamps wrap modulo this. -/
def U32 : Nat := 4294967296

/-- Upper bound of uint8 values. -/
def U8 : Nat := 256

/-- DOORBELL_SOFTWARE_DEBOUNCE_TIME_MS in doorbell.cpp. -/
def DOORBELL_SOFTWARE_DEBOUNCE_TIME_MS : Nat := 100

/-- DOORBELL_LONG_PRESS_TIME_MS in doorbell.cpp. -/
def DOORBELL_LONG_PRESS_TIME_MS : Nat := 5000

/-- DOORBELL_HISTORY_LENGTH in config.h. -/
def DOORBELL_HISTORY_LENGTH : Nat := 32

/-- DOORBELL_MAX_MQTT_FOLLOW_TOPICS in doorbell.cpp. -/
def DOORBELL_MAX_MQTT_FOLLOW_TOPICS : Nat := 8

/-- DOORBELL_AUDIO_PLAY_COUNT in config.h. -/
def DOORBELL_AUDIO_PLAY_COUNT : Nat := 1

/-- DOORBELL_AUDIO_PLAY_DELAY_MS in config.h. -/
def DOORBELL_AUDIO_PLAY_DELAY_MS : Nat := 1000

/-- DOORBELL_AUDIO_FILE_NAME in config.h. -/
def DOORBELL_AUDIO_FILE_NAME : AString := ("doorbell.wav").toList

/-- EVENT_DOORBELL in doorbell.cpp. -/
def EVENT_DOORBELL : Nat := 0

/-- EVENT_COURTYARD_LAMP in doorbell.cpp. -/
def EVENT_COURTYARD_LAMP : Nat := 1

/-- EVENT_DOORBELL_WEB in doorbell.cpp. -/
def EVENT_DOORBELL_WEB : Nat := 2

/-- EVENT_DOORBELL_MQTT in doorbell.cpp. -/
def EVENT_DOORBELL_MQTT : Nat := 3

/-- Payload string mqttMsg = "1" in doorbell.cpp. -/
def mqttMsg : AString := ("1").toList

/-- Playback-scheduler state: the module-level variables of doorbell.cpp
that drive replaying, together with the running flag of the audio
generator object (audio_gen-isRunning). -/
structure PlayState where
  replay_cntr : Nat
  replay_timestamp_ms : Nat
  audioRunning : Bool
  deriving DecidableEq, Repr

/-- Startup values of the playback variables (statics are zero initialised,
the generator is not running before begin). -/
def idlePlayState : PlayState := { replay_cntr := 0, replay_timestamp_ms := 0, audioRunning := false }

/-- Configuration values loaded by doorbell_init and the MQTT topic prefix
from main.cpp (mqttSwitchesTopicPrefix). -/
structure DoorbellCfg where
  audioPlayCount : Nat
  audioPlayDelay_ms : Nat
  mqttSwitchesTopicPrefixStr : AString
  deriving DecidableEq, Repr

/-- Per-tick oracle: results of the external collaborator calls made during
one invocation (millis reading, digitalRead level where true means HIGH,
MQTT client connectivity and publish result, audio begin result, whether
the generator is still running after one loop step, and the formatted
local-time string used by the history writer). -/
structure DoorbellEnv where
  mqttConnected : Bool
  publishOk : Bool
  mqttInitOk : Bool
  mqttFlagConnected : Bool
  mqttFlagDisconnected : Bool
  level : Bool
  now : Nat
  beginOk : Bool
  loopRuns : Bool
  timestamp : AString
  deriving DecidableEq, Repr

/-- Observable side effects of one invocation (MQTT publish attempts,
audio generator begin and stop calls, history file writes). -/
inductive DoorbellAct where
  | publish (topic payload : AString) (ok : Bool)
  | audioBegin (ok : Bool)
  | audioStop
  | historyWrite (eventType : Nat)
  deriving DecidableEq, Repr

/-- Recognise a publish action. -/
def isPublishAct : DoorbellAct → Bool
  | DoorbellAct.publish _ _ _ => true
  | _ => false

/-- Recognise an audioBegin action (any result). -/
def isBeginAct : DoorbellAct → Bool
  | DoorbellAct.audioBegin _ => true
  | _ => false

/-- Recognise a successful audioBegin action. -/
def isBeginTrueAct : DoorbellAct → Bool
  | DoorbellAct.audioBegin true => true
  | _ => false

/-- Recognise a history write action. -/
def isHistoryWriteAct : DoorbellAct → Bool
  | DoorbellAct.historyWrite _ => true
  | _ => false

/-- Topic mqttTopicPlayAudio built in doorbell_init. -/
def mqttTopicPlayAudio (cfg : DoorbellCfg) : AString :=
  cfg.mqttSwitchesTopicPrefixStr ++ ("playAudio").toList

/-- Topic mqttTopicPress built in doorbell_init. -/
def mqttTopicPress (cfg : DoorbellCfg) : AString :=
  cfg.mqttSwitchesTopicPrefixStr ++ ("press").toList

/-- Topic mqttTopicLongPress built in doorbell_init. -/
def mqttTopicLongPress (cfg : DoorbellCfg) : AString :=
  cfg.mqttSwitchesTopicPrefixStr ++ ("longPress").toList

/-- doorbell_is_playing of doorbell.cpp: busy when the generator is
running, or a replay deadline is pending, or replays remain. -/
def doorbell_is_playing (ps : PlayState) : Bool :=
  if ps.audioRunning then true
  else if ps.replay_timestamp_ms ≠ 0 then true
  else if ps.replay_cntr ≠ 0 then true
  else false

/-- doorbell_play of doorbell.cpp. When not busy it rebuilds the decode
pipeline and starts it; on begin success replay_cntr is loaded with
audioPlayCount. Independent of the outcome, when the MQTT client is
connected one publish of the playAudio topic with payload "1" is
attempted. The returned action list records the begin attempt and the
publish attempt in program order. -/
def doorbell_play (env : DoorbellEnv) (cfg : DoorbellCfg) (ps : PlayState) :
    PlayState × List DoorbellAct :=
  let startPart :=
    if doorbell_is_playing ps then (ps, ([] : List DoorbellAct))
    else if env.beginOk then
      ({ replay_cntr := cfg.audioPlayCount, replay_timestamp_ms := ps.replay_timestamp_ms,
         audioRunning := true }, [DoorbellAct.audioBegin true])
    else
      ({ replay_cntr := ps.replay_cntr, replay_timestamp_ms := ps.replay_timestamp_ms,
         audioRunning := false }, [DoorbellAct.audioBegin false])
  let pubPart :=
    if env.mqttConnected then
      [DoorbellAct.publish (mqttTopicPlayAudio cfg) mqttMsg env.publishOk]
    else ([] : List DoorbellAct)
  (startPart.1, startPart.2 ++ pubPart)

/-- Playback section of doorbell_task (the code after the switch handling):
advance the running generator one loop step, otherwise restart at a due
replay deadline, otherwise account a finished replay and either schedule
the next deadline or fall idle. The millis plus delay sum is stored into a
uint32, hence the reduction modulo U32. -/
def doorbell_task_audio (env : DoorbellEnv) (cfg : DoorbellCfg) (ps : PlayState) :
    PlayState × List DoorbellAct :=
  if ps.audioRunning then
    ({ replay_cntr := ps.replay_cntr, replay_timestamp_ms := ps.replay_timestamp_ms,
       audioRunning := env.loopRuns }, [])
  else if ps.replay_timestamp_ms ≠ 0 then
    if ps.replay_timestamp_ms < env.now then
      ({ replay_cntr := ps.replay_cntr, replay_timestamp_ms := 0,
         audioRunning := env.beginOk }, [DoorbellAct.audioBegin env.beginOk])
    else (ps, [])
  else if ps.replay_cntr ≠ 0 then
    let c := ps.replay_cntr - 1
    if c ≠ 0 then
      ({ replay_cntr := c, replay_timestamp_ms := (env.now + cfg.audioPlayDelay_ms) % U32,
         audioRunning := ps.audioRunning }, [DoorbellAct.audioStop])
    else
      ({ replay_cntr := 0, replay_timestamp_ms := 0,
         audioRunning := ps.audioRunning }, [DoorbellAct.audioStop])
  else (ps, [])

/-- One playback-relevant operation: a doorbell_play call or one playback
tick of doorbell_task, each with its oracle. -/
inductive DoorbellOp where
  | play (env : DoorbellEnv)
  | tick (env : DoorbellEnv)
  deriving Repr

/-- Apply one operation to the playback state. -/
def doorbell_step (cfg : DoorbellCfg) (ps : PlayState) : DoorbellOp → PlayState
  | DoorbellOp.play env => (doorbell_play env cfg ps).1
  | DoorbellOp.tick env => (doorbell_task_audio env cfg ps).1

/-- Playback state after a sequence of operations. -/
def doorbell_reach (cfg : DoorbellCfg) (ps : PlayState) : List DoorbellOp → PlayState
  | [] => ps
  | op :: rest => doorbell_reach cfg (doorbell_step cfg ps op) rest

lemma doorbell_is_playing_eq_false_iff (ps : PlayState) :
    doorbell_is_playing ps = false ↔
      ps.audioRunning = false ∧ ps.replay_timestamp_ms = 0 ∧ ps.replay_cntr = 0 := by
  unfold doorbell_is_playing
  rcases ps with ⟨c, t, r⟩
  by_cases hr : r <;> by_cases ht : t = 0 <;> by_cases hc : c = 0 <;> simp [hr, ht, hc]

lemma deadline_implies_replays_step (cfg : DoorbellCfg) (ps : PlayState) (op : DoorbellOp)
    (h : ps.replay_timestamp_ms ≠ 0 → ps.replay_cntr ≠ 0) :
    (doorbell_step cfg ps op).replay_timestamp_ms ≠ 0 →
      (doorbell_step cfg ps op).replay_cntr ≠ 0 := by
  rcases op with env | env
  · unfold doorbell_step doorbell_play
    by_cases hb : doorbell_is_playing ps
    · simpa [hb] using h
    · rcases (doorbell_is_playing_eq_false_iff ps).mp (by simpa using hb) with ⟨hr, ht, hc⟩
      by_cases hko : env.beginOk <;> simp [hb, hko, ht, hc]
  · unfold doorbell_step doorbell_task_audio
    by_cases hr : ps.audioRunning
    · simpa [hr] using h
    · by_cases ht : ps.replay_timestamp_ms ≠ 0
      · by_cases hd : ps.replay_timestamp_ms < env.now
        · simp [hr, ht, hd]
        · simpa [hr, ht, hd] using h
      · by_cases hc : ps.replay_cntr ≠ 0
        · by_cases h1 : ps.replay_cntr - 1 ≠ 0
          · simp [hr, ht, hc, h1]
          · simp [hr, ht, hc, h1]
        · simp [hr, ht, hc]

/-- Oracle for a tick in which the switch line is sampled at the given
level: MQTT connected, publishes succeed, audio begin succeeds, the
generator keeps running after one loop step. -/
def mkEnv (level : Bool) (now : Nat) : DoorbellEnv :=
  { mqttConnected := true, publishOk := true, mqttInitOk := true,
    mqttFlagConnected := false, mqttFlagDisconnected := false,
    level := level, now := now, beginOk := true, loopRuns := true,
    timestamp := [] }

/-- Oracle for a playback-only step: switch line idle (HIGH), MQTT
connected, publishes and begin succeed; loopRuns tells whether the
generator is still running after the loop step of this tick. -/
def mkAudioEnv (now : Nat) (loopRuns : Bool) : DoorbellEnv :=
  { mqttConnected := true, publishOk := true, mqttInitOk := true,
    mqttFlagConnected := false, mqttFlagDisconnected := false,
    level := true, now := now, beginOk := true, loopRuns := loopRuns,
    timestamp := [] }

lemma deadline_implies_replays_reach (cfg : DoorbellCfg) :
    ∀ (ops : List DoorbellOp) (ps : PlayState),
      (ps.replay_timestamp_ms ≠ 0 → ps.replay_cntr ≠ 0) →
      ((doorbell_reach cfg ps ops).replay_timestamp_ms ≠ 0 →
        (doorbell_reach cfg ps ops).replay_cntr ≠ 0) := by
  intro ops
  induction ops with
  | nil => intro ps h; exact h
  | cons op rest ih =>
      intro ps h
      exact ih (doorbell_step cfg ps op) (deadline_implies_replays_step cfg ps op h)

/-- C1: doorbell_play called while doorbell_is_playing is true changes no
playback state, invokes no audio_gen begin and writes no history (the
only effects are the error report and the unconditional playAudio
publish); and a successful doorbell_play from the idle state makes
doorbell_is_playing true, so of several triggers in one tick only the
first can start playback. -/
theorem doorbell_play_busy_is_noop (cfg : DoorbellCfg) :
    (∀ (env : DoorbellEnv) (ps : PlayState), doorbell_is_playing ps = true →
      (doorbell_play env cfg ps).1 = ps ∧
      (doorbell_play env cfg ps).2.countP isBeginAct = 0 ∧
      (doorbell_play env cfg ps).2.countP isHistoryWriteAct = 0) ∧
    (∀ (env : DoorbellEnv) (ps : PlayState), doorbell_is_playing ps = false →
      env.beginOk = true → doorbell_is_playing (doorbell_play env cfg ps).1 = true) := by
  constructor
  · intro env ps h
    unfold doorbell_play
    by_cases hc : env.mqttConnected <;>
      simp [h, hc, List.countP_cons, isBeginAct, isHistoryWriteAct]
  · intro env ps h hb
    rcases (doorbell_is_playing_eq_false_iff ps).mp h with ⟨hr, ht, hc⟩
    unfold doorbell_play
    simp [doorbell_is_playing, hr, ht, hc, hb]

/-- Witness for C1 at a busy state with one replay remaining and at the
idle state. -/
theorem doorbell_play_busy_is_noop_witness :
    (doorbell_is_playing ⟨1, 0, false⟩ = true ∧
      (doorbell_play (mkAudioEnv 0 true) ⟨1, 1000, []⟩ ⟨1, 0, false⟩).1 = ⟨1, 0, false⟩) ∧
    (doorbell_is_playing idlePlayState = false ∧ (mkAudioEnv 0 true).beginOk = true ∧
      doorbell_is_playing (doorbell_play (mkAudioEnv 0 true) ⟨1, 1000, []⟩ idlePlayState).1 = true) :=
  ⟨⟨by decide, ((doorbell_play_busy_is_noop ⟨1, 1000, []⟩).1 (mkAudioEnv 0 true) ⟨1, 0, false⟩ (by decide)).1⟩,
   ⟨by decide, by decide,
    (doorbell_play_busy_is_noop ⟨1, 1000, []⟩).2 (mkAudioEnv 0 true) idlePlayState (by decide) (by decide)⟩⟩

/-- C3 counterexample: with playCount 3 the claimed exclusive-or invariant
fails on a concrete reachable state: after one successful play, one loop
tick that ends the first rendering and one accounting tick, both
replay_cntr (2) and replay_timestamp_ms (1200) are nonzero. -/
theorem doorbell_session_xor_cex :
    0 < (doorbell_reach ⟨3, 1000, []⟩ idlePlayState
          [DoorbellOp.play (mkAudioEnv 0 true), DoorbellOp.tick (mkAudioEnv 100 false),
           DoorbellOp.tick (mkAudioEnv 200 false)]).replay_cntr ∧
    (doorbell_reach ⟨3, 1000, []⟩ idlePlayState
      [DoorbellOp.play (mkAudioEnv 0 true), DoorbellOp.tick (mkAudioEnv 100 false),
       DoorbellOp.tick (mkAudioEnv 200 false)]).replay_timestamp_ms ≠ 0 := by
  constructor
  · decide
  · decide

/-- C3 amended: in every state reachable from idle by doorbell_play calls
and playback ticks, a nonzero replay_timestamp_ms implies replay_cntr is
nonzero; the exclusive-or form fails because both are nonzero while
waiting between replays (see the counterexample). -/
theorem doorbell_deadline_implies_replays (cfg : DoorbellCfg) (ops : List DoorbellOp)
    (h : (doorbell_reach cfg idlePlayState ops).replay_timestamp_ms ≠ 0) :
    (doorbell_reach cfg idlePlayState ops).replay_cntr ≠ 0 :=
  deadline_implies_replays_reach cfg ops idlePlayState (fun ht => absurd rfl ht) h

/-- Witness for C3 amended at the waiting-between-replays state of the
counterexample trace. -/
theorem doorbell_deadline_implies_replays_witness :
    (doorbell_reach ⟨3, 1000, []⟩ idlePlayState
      [DoorbellOp.play (mkAudioEnv 0 true), DoorbellOp.tick (mkAudioEnv 100 false),
       DoorbellOp.tick (mkAudioEnv 200 false)]).replay_timestamp_ms ≠ 0 ∧
    (doorbell_reach ⟨3, 1000, []⟩ idlePlayState
      [DoorbellOp.play (mkAudioEnv 0 true), DoorbellOp.tick (mkAudioEnv 100 false),
       DoorbellOp.tick (mkAudioEnv 200 false)]).replay_cntr ≠ 0 :=
  ⟨by decide,
   doorbell_deadline_implies_replays ⟨3, 1000, []⟩
     [DoorbellOp.play (mkAudioEnv 0 true), DoorbellOp.tick (mkAudioEnv 100 false),
      DoorbellOp.tick (mkAudioEnv 200 false)] (by decide)⟩

/-- C7: every doorbell_play call, busy or not, attempts exactly one
best-effort publish of the playAudio topic with payload "1" exactly when
the MQTT client is connected, and the resulting playback state does not
depend on connectivity or on the publish result. -/
theorem doorbell_play_always_publishes (cfg : DoorbellCfg) (ps : PlayState)
    (env env2 : DoorbellEnv) (hb : env.beginOk = env2.beginOk) :
    ((doorbell_play env cfg ps).2.filter isPublishAct =
      (if env.mqttConnected then
        [DoorbellAct.publish (mqttTopicPlayAudio cfg) mqttMsg env.publishOk]
       else [])) ∧
    (doorbell_play env cfg ps).1 = (doorbell_play env2 cfg ps).1 := by
  constructor
  · unfold doorbell_play
    by_cases h : doorbell_is_playing ps <;> by_cases hk : env.beginOk <;>
      by_cases hc : env.mqttConnected <;>
        simp [h, hk, hc, List.filter, isPublishAct]
  · unfold doorbell_play
    by_cases h : doorbell_is_playing ps <;> by_cases hk : env.beginOk <;>
      simp [h, hk, ← hb]

/-- Witness for C7 at the idle state with two environments that differ in
the clock reading. -/
theorem doorbell_play_always_publishes_witness :
    (mkAudioEnv 5 true).beginOk = (mkAudioEnv 7 true).beginOk ∧
    (((doorbell_play (mkAudioEnv 5 true) ⟨1, 1000, []⟩ idlePlayState).2.filter isPublishAct =
       (if (mkAudioEnv 5 true).mqttConnected then
         [DoorbellAct.publish (mqttTopicPlayAudio ⟨1, 1000, []⟩) mqttMsg
           (mkAudioEnv 5 true).publishOk]
        else [])) ∧
     (doorbell_play (mkAudioEnv 5 true) ⟨1, 1000, []⟩ idlePlayState).1 =
       (doorbell_play (mkAudioEnv 7 true) ⟨1, 1000, []⟩ idlePlayState).1) :=
  ⟨rfl, doorbell_play_always_publishes ⟨1, 1000, []⟩ idlePlayState
          (mkAudioEnv 5 true) (mkAudioEnv 7 true) rfl⟩

/-- Space or tab, the characters stripped from line ends by
readStringFromFile and readStringsFromFile in fileutils.cpp. -/
def wsChar (c : Char) : Bool := c == ' ' || c == '\t'

/-- Truncation at the first COMMENT_CHAR (;) done by the file readers of
fileutils.cpp (String.indexOf followed by String.remove). -/
def stripComment (s : AString) : AString := s.takeWhile (fun c => !(c == ';'))

/-- Removal of trailing spaces and tabs done by the file readers of
fileutils.cpp. -/
def removeTrailingWs (s : AString) : AString := (s.reverse.dropWhile wsChar).reverse

/-- Per-line post-processing applied by readStringFromFile and
readStringsFromFile: comment truncation, then trailing whitespace
removal. -/
def sanitizeLine (s : AString) : AString := removeTrailingWs (stripComment s)

/-- Event label appended after the timestamp by doorbell_update_history. -/
def eventLabel (eventType : Nat) : AString :=
  if eventType = EVENT_COURTYARD_LAMP then (" courtyard lamp").toList
  else if eventType = EVENT_DOORBELL then (" doorbell switch").toList
  else if eventType = EVENT_DOORBELL_WEB then (" doorbell through web").toList
  else if eventType = EVENT_DOORBELL_MQTT then (" doorbell through MQTT").toList
  else (" unknown event!").toList

/-- doorbell_update_history of doorbell.cpp, acting on the history file
contents (a list of lines, most recent first): read back at most
DOORBELL_HISTORY_LENGTH lines through readStringsFromFile (which
sanitises each line), then rewrite the file with the new entry first.
Write failures are only logged in the C code and are not modelled. -/
def doorbell_update_history (timestamp : AString) (eventType : Nat)
    (file : List AString) : List AString :=
  (timestamp ++ eventLabel eventType) ::
    (file.take DOORBELL_HISTORY_LENGTH).map sanitizeLine

/-- History file contents after a sequence of doorbell_update_history
calls, each given as a timestamp and an event type. -/
def doorbell_record_all (events : List (AString × Nat)) (file : List AString) :
    List AString :=
  events.foldl (fun f ev => doorbell_update_history ev.1 ev.2 f) file

/-- The line doorbell_update_history writes for one event. -/
def renderHistoryLine (ev : AString × Nat) : AString := ev.1 ++ eventLabel ev.2

lemma dropWhile_dropWhile (p : Char → Bool) :
    ∀ l : List Char, (l.dropWhile p).dropWhile p = l.dropWhile p := by
  intro l
  induction l with
  | nil => simp
  | cons a t ih =>
      by_cases h : p a = true
      · simp [List.dropWhile_cons, h, ih]
      · simp [List.dropWhile_cons, h]

lemma removeTrailingWs_idem (s : AString) :
    removeTrailingWs (removeTrailingWs s) = removeTrailingWs s := by
  unfold removeTrailingWs
  simp [dropWhile_dropWhile]

lemma mem_removeTrailingWs {c : Char} {s : AString} (h : c ∈ removeTrailingWs s) : c ∈ s := by
  unfold removeTrailingWs at h
  rw [List.mem_reverse] at h
  have hs := (List.dropWhile_sublist wsChar (l := s.reverse)).mem h
  exact List.mem_reverse.mp hs

lemma mem_stripComment_ne {c : Char} {s : AString} (h : c ∈ stripComment s) : c ≠ ';' := by
  unfold stripComment at h
  have hp := List.mem_takeWhile_imp h
  simpa using hp

lemma stripComment_eq_self {s : AString} (h : ∀ c ∈ s, c ≠ ';') : stripComment s = s := by
  unfold stripComment
  induction s with
  | nil => simp
  | cons a t ih =>
      have ha : a ≠ ';' := h a (by simp)
      simp [List.takeWhile_cons, ha, ih fun c hc => h c (by simp [hc])]

lemma sanitizeLine_idem (s : AString) : sanitizeLine (sanitizeLine s) = sanitizeLine s := by
  unfold sanitizeLine
  rw [stripComment_eq_self, removeTrailingWs_idem]
  intro c hc
  exact mem_stripComment_ne (mem_removeTrailingWs hc)

lemma mem_doorbell_record_all :
    ∀ (events : List (AString × Nat)) (file : List AString) (x : AString),
      x ∈ doorbell_record_all events file →
      (∃ ev ∈ events, x = renderHistoryLine ev ∨ x = sanitizeLine (renderHistoryLine ev)) ∨
      ∃ i y, file.get? i = some y ∧ (x = y ∨ x = sanitizeLine y) ∧
        (events = [] ∨ i + events.length ≤ DOORBELL_HISTORY_LENGTH) := by
  intro events
  induction events with
  | nil =>
      intro file x hx
      right
      obtain ⟨i, hi⟩ := List.get?_of_mem hx
      exact ⟨i, x, hi, Or.inl rfl, Or.inl rfl⟩
  | cons ev evs ih =>
      intro file x hx
      have hx2 : x ∈ doorbell_record_all evs (doorbell_update_history ev.1 ev.2 file) := hx
      rcases ih _ x hx2 with hev | ⟨i, y, hget, hxy, hbound⟩
      · rcases hev with ⟨e2, he2, hx3⟩
        exact Or.inl ⟨e2, by simp [he2], hx3⟩
      · rcases i with _ | j
        · -- index 0 of the rewritten file is the freshly written line
          left
          refine ⟨ev, by simp, ?_⟩
          unfold doorbell_update_history at hget
          simp at hget
          subst hget
          exact hxy
        · -- deeper indices come from the previous file contents, shifted by one
          right
          unfold doorbell_update_history at hget
          simp only [List.get?_cons_succ] at hget
          rw [List.get?_map] at hget
          rcases hmap : (file.take DOORBELL_HISTORY_LENGTH).get? j with _ | z
          · rw [hmap] at hget; simp at hget
          · rw [hmap] at hget
            simp at hget
            have hjlt : j < DOORBELL_HISTORY_LENGTH := by
              have hlen := List.get?_eq_some.mp hmap
              have := hlen.1
              have hle := List.length_take_le DOORBELL_HISTORY_LENGTH file
              omega
            have hfz : file.get? j = some z := by
              rw [← List.get?_take hjlt]
              exact hmap
            refine ⟨j, z, hfz, ?_, ?_⟩
            · rcases hxy with h1 | h1
              · exact Or.inr (by rw [h1, ← hget])
              · rw [← hget] at h1
                exact Or.inr (by rw [h1, sanitizeLine_idem])
            · right
              rcases hbound with hb | hb
              · subst hb; simpa using hjlt
              · simp at hb ⊢
                omega

/-- C2 counterexample: starting from an empty history file, 33 calls of
doorbell_update_history (DOORBELL_HISTORY_LENGTH plus one, with distinct
timestamps) leave a file of 33 lines, exceeding the claimed bound of 32,
and the oldest original entry is still present as the last line. -/
theorem doorbell_history_capacity_cex :
    (doorbell_record_all
        ((List.range 33).map (fun i => ([Char.ofNat (65 + i)], EVENT_DOORBELL))) []).length
      = DOORBELL_HISTORY_LENGTH + 1 ∧
    DOORBELL_HISTORY_LENGTH <
      (doorbell_record_all
        ((List.range 33).map (fun i => ([Char.ofNat (65 + i)], EVENT_DOORBELL))) []).length ∧
    renderHistoryLine ([Char.ofNat 65], EVENT_DOORBELL) ∈
      doorbell_record_all
        ((List.range 33).map (fun i => ([Char.ofNat (65 + i)], EVENT_DOORBELL))) [] := by
  refine ⟨by decide, by decide, by decide⟩

/-- C2 amended: after every doorbell_update_history call the rewritten file
has at most DOORBELL_HISTORY_LENGTH plus one lines (one more than the
claimed capacity, because the reader caps at 32 lines and the writer adds
one), the newest entry is always the first line, and an entry is dropped
only after capacity plus two total insertions: once DOORBELL_HISTORY_LENGTH
plus one further entries (none rewriting the same line) have been
recorded, the original line is absent. -/
theorem doorbell_history_bound_amended :
    (∀ (ts : AString) (ev : Nat) (file : List AString),
      (doorbell_update_history ts ev file).length ≤ DOORBELL_HISTORY_LENGTH + 1) ∧
    (∀ (ts : AString) (ev : Nat) (file : List AString),
      (doorbell_update_history ts ev file).head? = some (ts ++ eventLabel ev)) ∧
    (∀ (ev0 : AString × Nat) (events : List (AString × Nat)),
      events.length = DOORBELL_HISTORY_LENGTH + 1 →
      (∀ ev ∈ events, renderHistoryLine ev0 ≠ renderHistoryLine ev ∧
        renderHistoryLine ev0 ≠ sanitizeLine (renderHistoryLine ev)) →
      renderHistoryLine ev0 ∉
        doorbell_record_all events (doorbell_update_history ev0.1 ev0.2 [])) := by
  refine ⟨?_, ?_, ?_⟩
  · intro ts ev file
    unfold doorbell_update_history
    simp
  · intro ts ev file
    unfold doorbell_update_history
    simp
  · intro ev0 events hlen hne hmem
    rcases mem_doorbell_record_all events _ _ hmem with ⟨ev, hev, hx⟩ | ⟨i, y, hget, hxy, hbound⟩
    · rcases hx with hx | hx
      · exact (hne ev hev).1 hx
      · exact (hne ev hev).2 hx
    · have hfile : doorbell_update_history ev0.1 ev0.2 [] = [renderHistoryLine ev0] := by
        unfold doorbell_update_history renderHistoryLine
        simp
      rw [hfile] at hget
      rcases i with _ | j
      · simp at hget
        rcases hbound with hb | hb
        · rw [hb] at hlen; simp at hlen
        · rw [hlen] at hb
          simp [DOORBELL_HISTORY_LENGTH] at hb
      · simp at hget

/-- Witness for C2 amended: 33 fresh distinct entries after an initial one
remove the initial line. -/
theorem doorbell_history_bound_amended_witness :
    (((List.range 33).map (fun i => ([Char.ofNat (65 + i)], EVENT_DOORBELL))).length
        = DOORBELL_HISTORY_LENGTH + 1 ∧
      (∀ ev ∈ (List.range 33).map (fun i => (([Char.ofNat (65 + i)] : AString), EVENT_DOORBELL)),
        renderHistoryLine (([Char.ofNat 64], EVENT_DOORBELL)) ≠ renderHistoryLine ev ∧
        renderHistoryLine (([Char.ofNat 64], EVENT_DOORBELL)) ≠
          sanitizeLine (renderHistoryLine ev))) ∧
    renderHistoryLine (([Char.ofNat 64], EVENT_DOORBELL)) ∉
      doorbell_record_all
        ((List.range 33).map (fun i => ([Char.ofNat (65 + i)], EVENT_DOORBELL)))
        (doorbell_update_history [Char.ofNat 64] EVENT_DOORBELL []) :=
  ⟨⟨by decide, by decide⟩,
   doorbell_history_bound_amended.2.2 ([Char.ofNat 64], EVENT_DOORBELL)
     ((List.range 33).map (fun i => ([Char.ofNat (65 + i)], EVENT_DOORBELL)))
     (by decide) (by decide)⟩

/-- Characters skipped by atol before the number (isspace set). -/
def atolSpace (c : Char) : Bool :=
  c == ' ' || c == '\t' || c == '\n' || c == '\r' || c == '\x0b' || c == '\x0c'

/-- Digit accumulation of atol: consume leading decimal digits, stop at the
first non-digit. -/
def atolDigits : List Char → Nat → Nat
  | [], acc => acc
  | c :: cs, acc =>
      if c.isDigit then atolDigits cs (acc * 10 + (c.toNat - 48)) else acc

/-- Arduino String.toInt, which calls atol: skip leading whitespace, accept
an optional sign, parse leading digits; a string without leading digits
yields 0. -/
def toIntArduino (s : AString) : Int :=
  match s.dropWhile atolSpace with
  | '-' :: rest => - (atolDigits rest 0 : Int)
  | '+' :: rest => (atolDigits rest 0 : Int)
  | other => (atolDigits other 0 : Int)

/-- Store an int into a uint8 variable (two-complement truncation). -/
def toU8 (i : Int) : Nat := (i % (U8 : Int)).toNat

/-- Store an int into a uint32 variable (two-complement truncation). -/
def toU32 (i : Int) : Nat := (i % (U32 : Int)).toNat

/-- readStringFromFile of fileutils.cpp on the contents of a file given as
a list of raw lines: pick the requested line (empty for a missing file or
line) and sanitise it. -/
def readStringFromFile (file : List AString) (lineIdx : Nat) : AString :=
  sanitizeLine (file.getD lineIdx [])

/-- Configuration state established by doorbell_init. audioGainSrc records
which text the output gain is parsed from: none means the built-in default
DOORBELL_AUDIO_GAIN is kept; some s means String.toFloat is applied to s
(floating point itself is not modelled). -/
structure DoorbellInitCfg where
  audioFileName : AString
  audioPlayCount : Nat
  audioPlayDelay_ms : Nat
  audioGainSrc : Option AString
  deriving DecidableEq, Repr

/-- doorbell_init of doorbell.cpp, restricted to the configuration loading
from DOORBELL_CONFIG_FILENAME. doorbell_init runs once at startup, when
the static variables still hold the built-in defaults, so a branch of the
C code that leaves a variable unassigned is modelled by the default
value. Note the line-1 handling of the C code: when line 1 (the play
count line) is empty, it is audioFileName that is reset to the built-in
default, and audioPlayCount is left alone; otherwise audioPlayCount
receives String.toInt of line 1. -/
def doorbell_init (configFile : List AString) : DoorbellInitCfg :=
  let audioFileName0 := readStringFromFile configFile 0
  let str1 := readStringFromFile configFile 1
  let audioFileName := if str1 = [] then DOORBELL_AUDIO_FILE_NAME else audioFileName0
  let audioPlayCount :=
    if str1 = [] then DOORBELL_AUDIO_PLAY_COUNT else toU8 (toIntArduino str1)
  let str2 := readStringFromFile configFile 2
  let audioPlayDelay_ms :=
    if str2 = [] then DOORBELL_AUDIO_PLAY_DELAY_MS else toU32 (toIntArduino str2)
  let str3 := readStringFromFile configFile 3
  let audioGainSrc := if str3 = [] then none else some str3
  { audioFileName := audioFileName, audioPlayCount := audioPlayCount,
    audioPlayDelay_ms := audioPlayDelay_ms, audioGainSrc := audioGainSrc }

/-- One entry of the followedMqttTopics table of doorbell.cpp. -/
structure FollowedTopic where
  topic : AString
  value : AString
  deriving DecidableEq, Repr

/-- Arduino String.indexOf for a character. -/
def indexOfChar (c : Char) : List Char → Option Nat
  | [] => none
  | a :: l => if a = c then some 0 else (indexOfChar c l).map (fun n => n + 1)

/-- Line parsing of doorbell_mqtt_init: a line with a comma is split into
topic (before the first comma) and value (after it); a line without a
comma is a topic whose value is cleared, meaning any payload matches. -/
def loadFollowedTopic (line : AString) : FollowedTopic :=
  match indexOfChar ',' line with
  | some i => { topic := line.take i, value := line.drop (i + 1) }
  | none => { topic := line, value := [] }

/-- Loop body of doorbell_mqtt_init: each read line is parsed into the
table; the scan stops after the first entry whose topic is empty (which
is still stored). Stale entries of earlier loads that sit beyond the
stopping point in the fixed-size C array are not modelled; the result is
the list of entries written by this load. -/
def doorbell_mqtt_init_entries : List AString → List FollowedTopic
  | [] => []
  | l :: rest =>
      let e := loadFollowedTopic l
      if e.topic = [] then [e] else e :: doorbell_mqtt_init_entries rest

/-- doorbell_mqtt_init of doorbell.cpp on the contents of
DOORBELL_MQTT_FOLLOW_TOPIC_FILENAME: read at most
DOORBELL_MAX_MQTT_FOLLOW_TOPICS sanitised lines, then parse them.
Subscription calls only produce the boolean result in the C code and are
not modelled. -/
def doorbell_mqtt_init (file : List AString) : List FollowedTopic :=
  doorbell_mqtt_init_entries
    ((file.take DOORBELL_MAX_MQTT_FOLLOW_TOPICS).map sanitizeLine)

/-- Match condition of doorbell_mqtt_callback for one table entry: the
topic must be equal and the stored value must be empty or equal to the
payload. -/
def topicMatches (e : FollowedTopic) (topicStr payloadStr : AString) : Bool :=
  decide (topicStr = e.topic) &&
    (decide (e.value = []) || decide (payloadStr = e.value))

/-- doorbell_mqtt_callback of doorbell.cpp: scan every entry of the
followed-topics table; each matching entry triggers doorbell_play and a
doorbell-through-MQTT history write. The playback state and the history
file are threaded through the scan in array order. -/
def doorbell_mqtt_callback (env : DoorbellEnv) (cfg : DoorbellCfg)
    (topicStr payloadStr : AString) :
    List FollowedTopic → PlayState → List AString →
      PlayState × List AString × List DoorbellAct
  | [], ps, file => (ps, file, [])
  | e :: rest, ps, file =>
      if topicMatches e topicStr payloadStr then
        let pr := doorbell_play env cfg ps
        let file1 := doorbell_update_history env.timestamp EVENT_DOORBELL_MQTT file
        let r := doorbell_mqtt_callback env cfg topicStr payloadStr rest pr.1 file1
        (r.1, r.2.1, pr.2 ++ [DoorbellAct.historyWrite EVENT_DOORBELL_MQTT] ++ r.2.2)
      else doorbell_mqtt_callback env cfg topicStr payloadStr rest ps file

/-- C8: demonstration of the divergence in doorbell_init. With a config
file whose line 0 is custom.wav and whose line 1 (play count) is empty,
the code substitutes the default for audioFileName, discarding the read
file name, instead of defaulting the play count setting; and with a
non-numeric line 1 the play count becomes 0 (the atol result), not the
built-in default DOORBELL_AUDIO_PLAY_COUNT. -/
theorem doorbell_init_config_fallback_bug :
    ((doorbell_init [("custom.wav").toList, []]).audioFileName = DOORBELL_AUDIO_FILE_NAME ∧
      (doorbell_init [("custom.wav").toList, []]).audioFileName ≠ ("custom.wav").toList) ∧
    ((doorbell_init [("custom.wav").toList, ("abc").toList]).audioFileName
        = ("custom.wav").toList ∧
      (doorbell_init [("custom.wav").toList, ("abc").toList]).audioPlayCount = 0 ∧
      (doorbell_init [("custom.wav").toList, ("abc").toList]).audioPlayCount
        ≠ DOORBELL_AUDIO_PLAY_COUNT) := by
  refine ⟨⟨by decide, by decide⟩, by decide, by decide, by decide⟩

lemma indexOfChar_of_not_mem {c : Char} : ∀ {l : List Char}, c ∉ l → indexOfChar c l = none := by
  intro l
  induction l with
  | nil => intro _; rfl
  | cons a t ih =>
      intro h
      have ha : a ≠ c := fun e => h (by simp [e])
      simp [indexOfChar, ha, ih fun hm => h (by simp [hm])]

lemma indexOfChar_append {t v : List Char} (h : ',' ∉ t) :
    indexOfChar ',' (t ++ ',' :: v) = some t.length := by
  induction t with
  | nil => simp [indexOfChar]
  | cons a t2 ih =>
      have ha : a ≠ ',' := fun e => h (by simp [e])
      have ih2 := ih fun hm => h (by simp [hm])
      simp [indexOfChar, ha, ih2]

lemma loadFollowedTopic_comma (t v : AString) (h : ',' ∉ t) :
    loadFollowedTopic (t ++ ',' :: v) = { topic := t, value := v } := by
  unfold loadFollowedTopic
  rw [indexOfChar_append h]
  have h1 : (t ++ ',' :: v).take t.length = t := List.take_left t (',' :: v)
  have h2 : (t ++ ',' :: v).drop (t.length + 1) = v := by
    have he : t ++ ',' :: v = (t ++ [',']) ++ v := by simp
    have hl : (t ++ [',']).length = t.length + 1 := by simp
    rw [he, ← hl, List.drop_left]
  simp [h1, h2]

lemma loadFollowedTopic_nocomma (t : AString) (h : ',' ∉ t) :
    loadFollowedTopic t = { topic := t, value := [] } := by
  unfold loadFollowedTopic
  rw [indexOfChar_of_not_mem h]

/-- C9: a followed-topic table entry loaded by doorbell_mqtt_init from a
line of the form topic-comma-value makes doorbell_mqtt_callback treat a
message as a trigger exactly for that topic with that payload, while an
entry loaded from a line without a comma (empty stored value) triggers
for its topic with any payload. The sanitisation hypotheses say the lines
carry no comment character and no trailing whitespace, as real follow
lines do. -/
theorem doorbell_followed_topic_matching
    (t1 v1 t2 topic payload : AString)
    (hc1 : ',' ∉ t1) (hv1 : v1 ≠ [])
    (hs1 : sanitizeLine (t1 ++ ',' :: v1) = t1 ++ ',' :: v1)
    (hc2 : ',' ∉ t2) (hs2 : sanitizeLine t2 = t2) :
    doorbell_mqtt_init [t1 ++ ',' :: v1] = [{ topic := t1, value := v1 }] ∧
    (topicMatches { topic := t1, value := v1 } topic payload = true ↔
      (topic = t1 ∧ payload = v1)) ∧
    doorbell_mqtt_init [t2] = [{ topic := t2, value := [] }] ∧
    (topicMatches { topic := t2, value := [] } topic payload = true ↔ topic = t2) := by
  refine ⟨?_, ?_, ?_, ?_⟩
  · unfold doorbell_mqtt_init
    simp only [DOORBELL_MAX_MQTT_FOLLOW_TOPICS, List.take_cons_succ, List.take_nil,
      List.map_cons, List.map_nil, hs1]
    unfold doorbell_mqtt_init_entries
    rw [loadFollowedTopic_comma t1 v1 hc1]
    simp
    exact fun _ => rfl
  · unfold topicMatches
    simp [hv1]
  · unfold doorbell_mqtt_init
    simp only [DOORBELL_MAX_MQTT_FOLLOW_TOPICS, List.take_cons_succ, List.take_nil,
      List.map_cons, List.map_nil, hs2]
    unfold doorbell_mqtt_init_entries
    rw [loadFollowedTopic_nocomma t2 hc2]
    simp
    exact fun _ => rfl
  · unfold topicMatches
    simp

/-- Witness for C9 at the lines t1,v1 and t2 with message topic t1 and
payload v1. -/
theorem doorbell_followed_topic_matching_witness :
    ((',' ∉ ("t1").toList) ∧ ("v1").toList ≠ ([] : AString) ∧
      sanitizeLine (("t1").toList ++ ',' :: ("v1").toList)
        = ("t1").toList ++ ',' :: ("v1").toList ∧
      (',' ∉ ("t2").toList) ∧ sanitizeLine (("t2").toList) = ("t2").toList) ∧
    (doorbell_mqtt_init [("t1").toList ++ ',' :: ("v1").toList]
        = [{ topic := ("t1").toList, value := ("v1").toList }] ∧
      (topicMatches { topic := ("t1").toList, value := ("v1").toList }
          (("t1").toList) (("v1").toList) = true ↔
        (("t1").toList = ("t1").toList ∧ ("v1").toList = ("v1").toList)) ∧
      doorbell_mqtt_init [("t2").toList] = [{ topic := ("t2").toList, value := [] }] ∧
      (topicMatches { topic := ("t2").toList, value := [] }
          (("t1").toList) (("v1").toList) = true ↔ ("t1").toList = ("t2").toList)) :=
  ⟨⟨by decide, by decide, by decide, by decide, by decide⟩,
   doorbell_followed_topic_matching ("t1").toList ("v1").toList ("t2").toList
     ("t1").toList ("v1").toList (by decide) (by decide) (by decide) (by decide) (by decide)⟩

lemma doorbell_play_acts_counts (env : DoorbellEnv) (cfg : DoorbellCfg) (ps : PlayState) :
    (doorbell_play env cfg ps).2.countP isHistoryWriteAct = 0 ∧
    (doorbell_play env cfg ps).2.countP isBeginTrueAct =
      (if doorbell_is_playing ps = false ∧ env.beginOk = true then 1 else 0) := by
  unfold doorbell_play
  by_cases h : doorbell_is_playing ps <;> by_cases hk : env.beginOk <;>
    by_cases hc : env.mqttConnected <;>
      simp [h, hk, hc, List.countP_cons, isHistoryWriteAct, isBeginTrueAct]

lemma doorbell_update_history_length (ts : AString) (ev : Nat) (file : List AString)
    (h : file.length ≤ DOORBELL_HISTORY_LENGTH) :
    (doorbell_update_history ts ev file).length = file.length + 1 := by
  unfold doorbell_update_history
  simp
  omega

lemma doorbell_play_from_idle (env : DoorbellEnv) (cfg : DoorbellCfg) (ps : PlayState)
    (h : doorbell_is_playing ps = false) (hb : env.beginOk = true) :
    doorbell_is_playing (doorbell_play env cfg ps).1 = true := by
  rcases (doorbell_is_playing_eq_false_iff ps).mp h with ⟨hr, ht, hc⟩
  unfold doorbell_play
  simp [doorbell_is_playing, hr, ht, hc, hb]

lemma mqtt_callback_busy (env : DoorbellEnv) (cfg : DoorbellCfg) (t p : AString) :
    ∀ (entries : List FollowedTopic) (ps : PlayState) (file : List AString),
      doorbell_is_playing ps = true →
      (doorbell_mqtt_callback env cfg t p entries ps file).1 = ps ∧
      (doorbell_mqtt_callback env cfg t p entries ps file).2.2.countP isHistoryWriteAct =
        entries.countP (fun e => topicMatches e t p) ∧
      (doorbell_mqtt_callback env cfg t p entries ps file).2.2.countP isBeginTrueAct = 0 ∧
      (file.length + entries.countP (fun e => topicMatches e t p)
          ≤ DOORBELL_HISTORY_LENGTH + 1 →
        (doorbell_mqtt_callback env cfg t p entries ps file).2.1.length =
          file.length + entries.countP (fun e => topicMatches e t p)) := by
  intro entries
  induction entries with
  | nil =>
      intro ps file hbusy
      refine ⟨rfl, by simp [doorbell_mqtt_callback], by simp [doorbell_mqtt_callback], ?_⟩
      intro _
      simp [doorbell_mqtt_callback]
  | cons e rest ih =>
      intro ps file hbusy
      by_cases hm : topicMatches e t p
      · have hplay1 : (doorbell_play env cfg ps).1 = ps := by
          unfold doorbell_play
          simp [hbusy]
        have hcounts := doorbell_play_acts_counts env cfg ps
        have hrec := ih (doorbell_play env cfg ps).1
          (doorbell_update_history env.timestamp EVENT_DOORBELL_MQTT file)
          (by rw [hplay1]; exact hbusy)
        have hkc : List.countP (fun e2 => topicMatches e2 t p) (e :: rest)
            = List.countP (fun e2 => topicMatches e2 t p) rest + 1 := by
          simp [List.countP_cons, hm]
        have hcb : doorbell_mqtt_callback env cfg t p (e :: rest) ps file
            = ((doorbell_mqtt_callback env cfg t p rest (doorbell_play env cfg ps).1
                 (doorbell_update_history env.timestamp EVENT_DOORBELL_MQTT file)).1,
               (doorbell_mqtt_callback env cfg t p rest (doorbell_play env cfg ps).1
                 (doorbell_update_history env.timestamp EVENT_DOORBELL_MQTT file)).2.1,
               (doorbell_play env cfg ps).2 ++ [DoorbellAct.historyWrite EVENT_DOORBELL_MQTT]
                 ++ (doorbell_mqtt_callback env cfg t p rest (doorbell_play env cfg ps).1
                   (doorbell_update_history env.timestamp EVENT_DOORBELL_MQTT file)).2.2) := by
          rw [doorbell_mqtt_callback]
          simp [hm]
        rw [hcb, hkc]
        refine ⟨by rw [hrec.1, hplay1], ?_, ?_, ?_⟩
        · simp [List.countP_append, List.countP_cons, hcounts.1, hrec.2.1,
            isHistoryWriteAct]
        · simp [List.countP_append, List.countP_cons, hcounts.2, hrec.2.2.1,
            isBeginTrueAct, hbusy]
        · intro hlen
          have hfl : file.length ≤ DOORBELL_HISTORY_LENGTH := by omega
          have hul := doorbell_update_history_length env.timestamp EVENT_DOORBELL_MQTT file hfl
          have hr2 := hrec.2.2.2 (by rw [hul]; omega)
          rw [hr2, hul]
          omega
      · have hrec := ih ps file hbusy
        have hkc : List.countP (fun e2 => topicMatches e2 t p) (e :: rest)
            = List.countP (fun e2 => topicMatches e2 t p) rest := by
          simp [List.countP_cons, hm]
        have hcb : doorbell_mqtt_callback env cfg t p (e :: rest) ps file
            = doorbell_mqtt_callback env cfg t p rest ps file := by
          rw [doorbell_mqtt_callback]
          simp [hm]
        rw [hcb, hkc]
        exact hrec

/-- C10: for one incoming message, doorbell_mqtt_callback scans the whole
followed-topics table without stopping at the first match: with k
matching entries it performs k doorbell_play calls with k history writes
(one doorbell-through-MQTT line each, so the file grows by k while within
its bound), while only the first matching entry can start audio, the
later plays hitting the busy guard. -/
theorem doorbell_mqtt_callback_scans_all (env : DoorbellEnv) (cfg : DoorbellCfg)
    (t p : AString) (entries : List FollowedTopic) (ps : PlayState) (file : List AString)
    (hidle : doorbell_is_playing ps = false) (hb : env.beginOk = true) :
    (doorbell_mqtt_callback env cfg t p entries ps file).2.2.countP isHistoryWriteAct =
      entries.countP (fun e => topicMatches e t p) ∧
    (doorbell_mqtt_callback env cfg t p entries ps file).2.2.countP isBeginTrueAct =
      min (entries.countP (fun e => topicMatches e t p)) 1 ∧
    (file.length + entries.countP (fun e => topicMatches e t p)
        ≤ DOORBELL_HISTORY_LENGTH + 1 →
      (doorbell_mqtt_callback env cfg t p entries ps file).2.1.length =
        file.length + entries.countP (fun e => topicMatches e t p)) := by
  induction entries generalizing ps file with
  | nil =>
      refine ⟨by simp [doorbell_mqtt_callback], by simp [doorbell_mqtt_callback], ?_⟩
      intro _
      simp [doorbell_mqtt_callback]
  | cons e rest ih =>
      by_cases hm : topicMatches e t p
      · have hbusy1 : doorbell_is_playing (doorbell_play env cfg ps).1 = true :=
          doorbell_play_from_idle env cfg ps hidle hb
        have hcounts := doorbell_play_acts_counts env cfg ps
        have hrec := mqtt_callback_busy env cfg t p rest (doorbell_play env cfg ps).1
          (doorbell_update_history env.timestamp EVENT_DOORBELL_MQTT file) hbusy1
        have hkc : List.countP (fun e2 => topicMatches e2 t p) (e :: rest)
            = List.countP (fun e2 => topicMatches e2 t p) rest + 1 := by
          simp [List.countP_cons, hm]
        have hcb : doorbell_mqtt_callback env cfg t p (e :: rest) ps file
            = ((doorbell_mqtt_callback env cfg t p rest (doorbell_play env cfg ps).1
                 (doorbell_update_history env.timestamp EVENT_DOORBELL_MQTT file)).1,
               (doorbell_mqtt_callback env cfg t p rest (doorbell_play env cfg ps).1
                 (doorbell_update_history env.timestamp EVENT_DOORBELL_MQTT file)).2.1,
               (doorbell_play env cfg ps).2 ++ [DoorbellAct.historyWrite EVENT_DOORBELL_MQTT]
                 ++ (doorbell_mqtt_callback env cfg t p rest (doorbell_play env cfg ps).1
                   (doorbell_update_history env.timestamp EVENT_DOORBELL_MQTT file)).2.2) := by
          rw [doorbell_mqtt_callback]
          simp [hm]
        rw [hcb, hkc]
        refine ⟨?_, ?_, ?_⟩
        · simp [List.countP_append, List.countP_cons, hcounts.1, hrec.2.1,
            isHistoryWriteAct]
        · simp [List.countP_append, List.countP_cons, hcounts.2, hrec.2.2.1,
            isBeginTrueAct, hidle, hb]
        · intro hlen
          have hfl : file.length ≤ DOORBELL_HISTORY_LENGTH := by omega
          have hul := doorbell_update_history_length env.timestamp EVENT_DOORBELL_MQTT file hfl
          have hr2 := hrec.2.2.2 (by rw [hul]; omega)
          rw [hr2, hul]
          omega
      · have hrec := ih ps file hidle
        have hkc : List.countP (fun e2 => topicMatches e2 t p) (e :: rest)
            = List.countP (fun e2 => topicMatches e2 t p) rest := by
          simp [List.countP_cons, hm]
        have hcb : doorbell_mqtt_callback env cfg t p (e :: rest) ps file
            = doorbell_mqtt_callback env cfg t p rest ps file := by
          rw [doorbell_mqtt_callback]
          simp [hm]
        rw [hcb, hkc]
        exact hrec

/-- Witness for C10: a table of 8 entries in which two entries match the
incoming topic, starting from the idle playback state and an empty
history file. -/
theorem doorbell_mqtt_callback_scans_all_witness :
    (doorbell_is_playing idlePlayState = false ∧ (mkAudioEnv 0 true).beginOk = true) ∧
    ((doorbell_mqtt_callback (mkAudioEnv 0 true) ⟨1, 1000, []⟩ ("ta").toList mqttMsg
        [⟨("ta").toList, []⟩, ⟨("tb").toList, []⟩, ⟨("ta").toList, []⟩, ⟨("tb").toList, []⟩,
         ⟨("tb").toList, []⟩, ⟨("tb").toList, []⟩, ⟨("tb").toList, []⟩, ⟨("tb").toList, []⟩]
        idlePlayState []).2.2.countP isHistoryWriteAct =
      ([⟨("ta").toList, []⟩, ⟨("tb").toList, []⟩, ⟨("ta").toList, []⟩, ⟨("tb").toList, []⟩,
        ⟨("tb").toList, []⟩, ⟨("tb").toList, []⟩, ⟨("tb").toList, []⟩,
        ⟨("tb").toList, []⟩] : List FollowedTopic).countP
          (fun e => topicMatches e (("ta").toList) mqttMsg) ∧
      (doorbell_mqtt_callback (mkAudioEnv 0 true) ⟨1, 1000, []⟩ ("ta").toList mqttMsg
        [⟨("ta").toList, []⟩, ⟨("tb").toList, []⟩, ⟨("ta").toList, []⟩, ⟨("tb").toList, []⟩,
         ⟨("tb").toList, []⟩, ⟨("tb").toList, []⟩, ⟨("tb").toList, []⟩, ⟨("tb").toList, []⟩]
        idlePlayState []).2.2.countP isBeginTrueAct =
      min (([⟨("ta").toList, []⟩, ⟨("tb").toList, []⟩, ⟨("ta").toList, []⟩, ⟨("tb").toList, []⟩,
        ⟨("tb").toList, []⟩, ⟨("tb").toList, []⟩, ⟨("tb").toList, []⟩,
        ⟨("tb").toList, []⟩] : List FollowedTopic).countP
          (fun e => topicMatches e (("ta").toList) mqttMsg)) 1 ∧
      ((([] : List AString).length +
          ([⟨("ta").toList, []⟩, ⟨("tb").toList, []⟩, ⟨("ta").toList, []⟩, ⟨("tb").toList, []⟩,
            ⟨("tb").toList, []⟩, ⟨("tb").toList, []⟩, ⟨("tb").toList, []⟩,
            ⟨("tb").toList, []⟩] : List FollowedTopic).countP
              (fun e => topicMatches e (("ta").toList) mqttMsg)
          ≤ DOORBELL_HISTORY_LENGTH + 1) →
        (doorbell_mqtt_callback (mkAudioEnv 0 true) ⟨1, 1000, []⟩ ("ta").toList mqttMsg
          [⟨("ta").toList, []⟩, ⟨("tb").toList, []⟩, ⟨("ta").toList, []⟩, ⟨("tb").toList, []⟩,
           ⟨("tb").toList, []⟩, ⟨("tb").toList, []⟩, ⟨("tb").toList, []⟩, ⟨("tb").toList, []⟩]
          idlePlayState []).2.1.length =
        ([] : List AString).length +
          ([⟨("ta").toList, []⟩, ⟨("tb").toList, []⟩, ⟨("ta").toList, []⟩, ⟨("tb").toList, []⟩,
            ⟨("tb").toList, []⟩, ⟨("tb").toList, []⟩, ⟨("tb").toList, []⟩,
            ⟨("tb").toList, []⟩] : List FollowedTopic).countP
              (fun e => topicMatches e (("ta").toList) mqttMsg))) :=
  ⟨⟨by decide, by decide⟩,
   doorbell_mqtt_callback_scans_all (mkAudioEnv 0 true) ⟨1, 1000, []⟩ ("ta").toList mqttMsg
     [⟨("ta").toList, []⟩, ⟨("tb").toList, []⟩, ⟨("ta").toList, []⟩, ⟨("tb").toList, []⟩,
      ⟨("tb").toList, []⟩, ⟨("tb").toList, []⟩, ⟨("tb").toList, []⟩, ⟨("tb").toList, []⟩]
     idlePlayState [] (by decide) (by decide)⟩

/-- Full engine state touched by doorbell_task: the static switch sampling
variables (prevSwitchStatus, switch_press_timestamp_ms), the playback
variables, the history file contents and the MQTT subscription flag. -/
structure DoorbellState where
  prevSwitchStatus : Bool
  switch_press_timestamp_ms : Nat
  play : PlayState
  historyFile : List AString
  subscribedToMqttTopics : Bool
  deriving DecidableEq, Repr

/-- Subscription bookkeeping at the top of doorbell_task: re-subscribe on a
connect transition (the result of doorbell_mqtt_init is the oracle field
mqttInitOk), clear the flag on a disconnect transition. -/
def doorbell_task_mqtt_sub (env : DoorbellEnv) (st : DoorbellState) : DoorbellState :=
  let sub1 :=
    if (env.mqttConnected = true ∧ st.subscribedToMqttTopics = false)
        ∨ env.mqttFlagConnected = true then env.mqttInitOk
    else st.subscribedToMqttTopics
  let sub2 :=
    if (env.mqttConnected = false ∧ sub1 = true) ∨ env.mqttFlagDisconnected = true then false
    else sub1
  { st with subscribedToMqttTopics := sub2 }

/-- Switch sampling section of doorbell_task. The line is active low:
pressed means level false. A falling edge opens a press and records the
clock; a rising edge closes it, and if the press lasted longer than the
debounce window it publishes the press topic (when connected), rings the
bell when not busy (doorbell_play plus a SwitchPress history entry) and
always clears the press timestamp; a press still open past the long-press
threshold publishes the longPress topic, clears the timestamp and records
a courtyard-lamp history entry. The uint32 additions wrap modulo U32. -/
def doorbell_task_switch (env : DoorbellEnv) (cfg : DoorbellCfg) (st : DoorbellState) :
    DoorbellState × List DoorbellAct :=
  let risingEdge := !st.prevSwitchStatus && env.level
  let fallingEdge := st.prevSwitchStatus && !env.level
  let ts1 :=
    if fallingEdge = true ∧ st.switch_press_timestamp_ms = 0 then env.now
    else st.switch_press_timestamp_ms
  let pressFires := risingEdge = true ∧ ts1 ≠ 0 ∧
    (ts1 + DOORBELL_SOFTWARE_DEBOUNCE_TIME_MS) % U32 < env.now
  let pressPubActs :=
    if pressFires ∧ env.mqttConnected = true then
      [DoorbellAct.publish (mqttTopicPress cfg) mqttMsg env.publishOk]
    else ([] : List DoorbellAct)
  let ringPart :=
    if pressFires ∧ doorbell_is_playing st.play = false then
      let pr := doorbell_play env cfg st.play
      (pr.1, doorbell_update_history env.timestamp EVENT_DOORBELL st.historyFile,
       pr.2 ++ [DoorbellAct.historyWrite EVENT_DOORBELL])
    else (st.play, st.historyFile, ([] : List DoorbellAct))
  let ts2 := if risingEdge = true then 0 else ts1
  let longFires := ts2 ≠ 0 ∧ (ts2 + DOORBELL_LONG_PRESS_TIME_MS) % U32 < env.now
  let longPart :=
    if longFires then
      ((if env.mqttConnected = true then
          [DoorbellAct.publish (mqttTopicLongPress cfg) mqttMsg env.publishOk]
        else ([] : List DoorbellAct)) ++ [DoorbellAct.historyWrite EVENT_COURTYARD_LAMP],
       doorbell_update_history env.timestamp EVENT_COURTYARD_LAMP ringPart.2.1, 0)
    else (([] : List DoorbellAct), ringPart.2.1, ts2)
  ({ prevSwitchStatus := env.level, switch_press_timestamp_ms := longPart.2.2,
     play := ringPart.1, historyFile := longPart.2.1,
     subscribedToMqttTopics := st.subscribedToMqttTopics },
   pressPubActs ++ ringPart.2.2 ++ longPart.1)

/-- doorbell_task of doorbell.cpp: subscription bookkeeping, then the
switch sampling section, then the playback section, in program order
within one tick. -/
def doorbell_task (env : DoorbellEnv) (cfg : DoorbellCfg) (st : DoorbellState) :
    DoorbellState × List DoorbellAct :=
  let st0 := doorbell_task_mqtt_sub env st
  let sw := doorbell_task_switch env cfg st0
  let au := doorbell_task_audio env cfg sw.1.play
  ({ sw.1 with play := au.1 }, sw.2 ++ au.2)

/-- doorbell_task over a sequence of ticks, collecting the per-tick action
lists in order. -/
def doorbell_run (cfg : DoorbellCfg) : List DoorbellEnv → DoorbellState →
    DoorbellState × List (List DoorbellAct)
  | [], st => (st, [])
  | env :: rest, st =>
      let r := doorbell_task env cfg st
      let rr := doorbell_run cfg rest r.1
      (rr.1, r.2 :: rr.2)

/-- Tick sequence of one press and release cycle: a falling-edge tick at
t0, held (low) ticks at the given times, and a rising-edge (release) tick
at t1, all with the standard oracle mkEnv. -/
def pressCycleEnvs (t0 : Nat) (us : List Nat) (t1 : Nat) : List DoorbellEnv :=
  mkEnv false t0 :: (us.map (mkEnv false) ++ [mkEnv true t1])

lemma doorbell_task_falling (cfg : DoorbellCfg) (t0 : Nat) (ps : PlayState)
    (file : List AString) (sub : Bool)
    (hp : doorbell_is_playing ps = false) (ht0 : 0 < t0)
    (hw : t0 + DOORBELL_LONG_PRESS_TIME_MS < U32) :
    doorbell_task (mkEnv false t0) cfg ⟨true, 0, ps, file, sub⟩
      = (⟨false, t0, ps, file, true⟩, []) := by
  rcases (doorbell_is_playing_eq_false_iff ps).mp hp with ⟨hr, ht, hc⟩
  have hmod : (t0 + DOORBELL_LONG_PRESS_TIME_MS) % U32 = t0 + DOORBELL_LONG_PRESS_TIME_MS :=
    Nat.mod_eq_of_lt hw
  have hnl : ¬ (t0 + DOORBELL_LONG_PRESS_TIME_MS < t0) := by omega
  have ht0n : ¬ (t0 = 0) := by omega
  cases sub <;>
    simp [doorbell_task, doorbell_task_mqtt_sub, doorbell_task_switch, doorbell_task_audio,
      mkEnv, hmod, hnl, ht0n, hr, ht, hc]

lemma doorbell_task_hold (cfg : DoorbellCfg) (t0 u : Nat) (ps : PlayState)
    (file : List AString)
    (hp : doorbell_is_playing ps = false) (ht0 : 0 < t0)
    (hw : t0 + DOORBELL_LONG_PRESS_TIME_MS < U32)
    (hu : u ≤ t0 + DOORBELL_LONG_PRESS_TIME_MS) :
    doorbell_task (mkEnv false u) cfg ⟨false, t0, ps, file, true⟩
      = (⟨false, t0, ps, file, true⟩, []) := by
  rcases (doorbell_is_playing_eq_false_iff ps).mp hp with ⟨hr, ht, hc⟩
  have hmod : (t0 + DOORBELL_LONG_PRESS_TIME_MS) % U32 = t0 + DOORBELL_LONG_PRESS_TIME_MS :=
    Nat.mod_eq_of_lt hw
  have hnl : ¬ (t0 + DOORBELL_LONG_PRESS_TIME_MS < u) := by omega
  have ht0n : ¬ (t0 = 0) := by omega
  simp [doorbell_task, doorbell_task_mqtt_sub, doorbell_task_switch, doorbell_task_audio,
    mkEnv, hmod, hnl, ht0n, hr, ht, hc]

lemma doorbell_task_release_fire (cfg : DoorbellCfg) (t0 t1 : Nat) (ps : PlayState)
    (file : List AString)
    (hp : doorbell_is_playing ps = false) (ht0 : 0 < t0)
    (hw : t0 + DOORBELL_LONG_PRESS_TIME_MS < U32)
    (hd : t0 + DOORBELL_SOFTWARE_DEBOUNCE_TIME_MS < t1) :
    doorbell_task (mkEnv true t1) cfg ⟨false, t0, ps, file, true⟩
      = (⟨true, 0, ⟨cfg.audioPlayCount, 0, true⟩,
          doorbell_update_history [] EVENT_DOORBELL file, true⟩,
         [DoorbellAct.publish (mqttTopicPress cfg) mqttMsg true, DoorbellAct.audioBegin true,
          DoorbellAct.publish (mqttTopicPlayAudio cfg) mqttMsg true,
          DoorbellAct.historyWrite EVENT_DOORBELL]) := by
  rcases (doorbell_is_playing_eq_false_iff ps).mp hp with ⟨hr, ht, hc⟩
  have hmod : (t0 + DOORBELL_SOFTWARE_DEBOUNCE_TIME_MS) % U32
      = t0 + DOORBELL_SOFTWARE_DEBOUNCE_TIME_MS := by
    apply Nat.mod_eq_of_lt
    unfold DOORBELL_SOFTWARE_DEBOUNCE_TIME_MS
    unfold DOORBELL_LONG_PRESS_TIME_MS at hw
    unfold U32 at hw ⊢
    omega
  have ht0n : ¬ (t0 = 0) := by omega
  simp [doorbell_task, doorbell_task_mqtt_sub, doorbell_task_switch, doorbell_task_audio,
    mkEnv, hmod, ht0n, hd, hr, ht, hc, hp, doorbell_play, doorbell_is_playing]

lemma doorbell_task_release_nofire (cfg : DoorbellCfg) (t0 t1 : Nat) (ps : PlayState)
    (file : List AString)
    (hp : doorbell_is_playing ps = false) (ht0 : 0 < t0)
    (hw : t0 + DOORBELL_LONG_PRESS_TIME_MS < U32)
    (hd : t1 ≤ t0 + DOORBELL_SOFTWARE_DEBOUNCE_TIME_MS) :
    doorbell_task (mkEnv true t1) cfg ⟨false, t0, ps, file, true⟩
      = (⟨true, 0, ps, file, true⟩, []) := by
  rcases (doorbell_is_playing_eq_false_iff ps).mp hp with ⟨hr, ht, hc⟩
  have hmod : (t0 + DOORBELL_SOFTWARE_DEBOUNCE_TIME_MS) % U32
      = t0 + DOORBELL_SOFTWARE_DEBOUNCE_TIME_MS := by
    apply Nat.mod_eq_of_lt
    unfold DOORBELL_SOFTWARE_DEBOUNCE_TIME_MS
    unfold DOORBELL_LONG_PRESS_TIME_MS at hw
    unfold U32 at hw ⊢
    omega
  have hnd : ¬ (t0 + DOORBELL_SOFTWARE_DEBOUNCE_TIME_MS < t1) := by omega
  simp [doorbell_task, doorbell_task_mqtt_sub, doorbell_task_switch, doorbell_task_audio,
    mkEnv, hmod, hnd, hr, ht, hc]

lemma doorbell_task_long_fire (cfg : DoorbellCfg) (t0 w : Nat) (ps : PlayState)
    (file : List AString)
    (hp : doorbell_is_playing ps = false) (ht0 : 0 < t0)
    (hw32 : t0 + DOORBELL_LONG_PRESS_TIME_MS < U32)
    (hlong : t0 + DOORBELL_LONG_PRESS_TIME_MS < w) :
    doorbell_task (mkEnv false w) cfg ⟨false, t0, ps, file, true⟩
      = (⟨false, 0, ps, doorbell_update_history [] EVENT_COURTYARD_LAMP file, true⟩,
         [DoorbellAct.publish (mqttTopicLongPress cfg) mqttMsg true,
          DoorbellAct.historyWrite EVENT_COURTYARD_LAMP]) := by
  rcases (doorbell_is_playing_eq_false_iff ps).mp hp with ⟨hr, ht, hc⟩
  have hmod : (t0 + DOORBELL_LONG_PRESS_TIME_MS) % U32 = t0 + DOORBELL_LONG_PRESS_TIME_MS :=
    Nat.mod_eq_of_lt hw32
  have ht0n : ¬ (t0 = 0) := by omega
  simp [doorbell_task, doorbell_task_mqtt_sub, doorbell_task_switch, doorbell_task_audio,
    mkEnv, hmod, ht0n, hlong, hr, ht, hc]

lemma doorbell_task_hold_cleared (cfg : DoorbellCfg) (v : Nat) (ps : PlayState)
    (file : List AString) (hp : doorbell_is_playing ps = false) :
    doorbell_task (mkEnv false v) cfg ⟨false, 0, ps, file, true⟩
      = (⟨false, 0, ps, file, true⟩, []) := by
  rcases (doorbell_is_playing_eq_false_iff ps).mp hp with ⟨hr, ht, hc⟩
  simp [doorbell_task, doorbell_task_mqtt_sub, doorbell_task_switch, doorbell_task_audio,
    mkEnv, hr, ht, hc]

lemma doorbell_task_release_cleared (cfg : DoorbellCfg) (t1 : Nat) (ps : PlayState)
    (file : List AString) (hp : doorbell_is_playing ps = false) :
    doorbell_task (mkEnv true t1) cfg ⟨false, 0, ps, file, true⟩
      = (⟨true, 0, ps, file, true⟩, []) := by
  rcases (doorbell_is_playing_eq_false_iff ps).mp hp with ⟨hr, ht, hc⟩
  simp [doorbell_task, doorbell_task_mqtt_sub, doorbell_task_switch, doorbell_task_audio,
    mkEnv, hr, ht, hc]

lemma doorbell_run_append (cfg : DoorbellCfg) :
    ∀ (l1 l2 : List DoorbellEnv) (st : DoorbellState),
      doorbell_run cfg (l1 ++ l2) st
        = ((doorbell_run cfg l2 (doorbell_run cfg l1 st).1).1,
           (doorbell_run cfg l1 st).2 ++ (doorbell_run cfg l2 (doorbell_run cfg l1 st).1).2) := by
  intro l1
  induction l1 with
  | nil => intro l2 st; simp [doorbell_run]
  | cons e rest ih =>
      intro l2 st
      simp only [List.cons_append, doorbell_run]
      simp only [List.append_eq]
      rw [ih]

lemma doorbell_run_hold (cfg : DoorbellCfg) (t0 : Nat) (ps : PlayState)
    (file : List AString)
    (hp : doorbell_is_playing ps = false) (ht0 : 0 < t0)
    (hw : t0 + DOORBELL_LONG_PRESS_TIME_MS < U32) :
    ∀ (us : List Nat), (∀ u ∈ us, u ≤ t0 + DOORBELL_LONG_PRESS_TIME_MS) →
      doorbell_run cfg (us.map (mkEnv false)) ⟨false, t0, ps, file, true⟩
        = (⟨false, t0, ps, file, true⟩, List.replicate us.length []) := by
  intro us
  induction us with
  | nil => intro _; simp [doorbell_run]
  | cons u rest ih =>
      intro hus
      have h1 := doorbell_task_hold cfg t0 u ps file hp ht0 hw (hus u (by simp))
      simp only [List.map_cons, doorbell_run, h1]
      rw [ih fun v hv => hus v (by simp [hv])]
      simp [List.replicate_succ]

lemma doorbell_run_hold_cleared (cfg : DoorbellCfg) (ps : PlayState)
    (file : List AString) (hp : doorbell_is_playing ps = false) :
    ∀ (vs : List Nat),
      doorbell_run cfg (vs.map (mkEnv false)) ⟨false, 0, ps, file, true⟩
        = (⟨false, 0, ps, file, true⟩, List.replicate vs.length []) := by
  intro vs
  induction vs with
  | nil => simp [doorbell_run]
  | cons v rest ih =>
      have h1 := doorbell_task_hold_cleared cfg v ps file hp
      simp only [List.map_cons, doorbell_run, h1]
      rw [ih]
      simp [List.replicate_succ]

/-- C4 counterexample: a press of exactly the debounce window (pressed at
1000 ms, released at 1100 ms, held duration 100 ms) produces no event at
all: the comparison in the code is strict, so the claimed bound (events
for all durations from debounceWindowMs up) fails at exactly 100 ms. -/
theorem doorbell_press_exact_debounce_cex :
    (doorbell_run ⟨1, 1000, []⟩ (pressCycleEnvs 1000 [] 1100)
        ⟨true, 0, idlePlayState, [], false⟩).2 = [[], []] ∧
    1000 + DOORBELL_SOFTWARE_DEBOUNCE_TIME_MS ≤ 1100 := by
  refine ⟨by decide, by decide⟩

/-- C4 amended: in a press and release cycle sampled from the idle switch
state with the playback idle and the bus connected, a held duration
strictly greater than the debounce window (and with all held samples
within the long-press threshold) produces exactly one confirmed-press
event, emitted at the release tick: one press-topic publish, one
doorbell_play start and one SwitchPress history record, with every other
tick silent; a cycle with held duration at most the debounce window
produces no event at all. -/
theorem doorbell_press_confirmed_amended (cfg : DoorbellCfg) (t0 t1 : Nat) (us : List Nat)
    (ps : PlayState) (file : List AString) (sub : Bool)
    (hp : doorbell_is_playing ps = false)
    (ht0 : 0 < t0) (hw : t0 + DOORBELL_LONG_PRESS_TIME_MS < U32)
    (hus : ∀ u ∈ us, u ≤ t0 + DOORBELL_LONG_PRESS_TIME_MS) :
    ((t0 + DOORBELL_SOFTWARE_DEBOUNCE_TIME_MS < t1) →
      (doorbell_run cfg (pressCycleEnvs t0 us t1) ⟨true, 0, ps, file, sub⟩).2
        = List.replicate (us.length + 1) [] ++
          [[DoorbellAct.publish (mqttTopicPress cfg) mqttMsg true, DoorbellAct.audioBegin true,
            DoorbellAct.publish (mqttTopicPlayAudio cfg) mqttMsg true,
            DoorbellAct.historyWrite EVENT_DOORBELL]]) ∧
    ((t1 ≤ t0 + DOORBELL_SOFTWARE_DEBOUNCE_TIME_MS) →
      (doorbell_run cfg (pressCycleEnvs t0 us t1) ⟨true, 0, ps, file, sub⟩).2
        = List.replicate (us.length + 2) []) := by
  have hfall := doorbell_task_falling cfg t0 ps file sub hp ht0 hw
  have hhold := doorbell_run_hold cfg t0 ps file hp ht0 hw us hus
  constructor
  · intro hd
    have hrel := doorbell_task_release_fire cfg t0 t1 ps file hp ht0 hw hd
    unfold pressCycleEnvs
    simp only [doorbell_run, hfall]
    rw [doorbell_run_append]
    rw [hhold]
    simp only [doorbell_run, hrel]
    simp [List.replicate_succ]
  · intro hd
    have hrel := doorbell_task_release_nofire cfg t0 t1 ps file hp ht0 hw hd
    unfold pressCycleEnvs
    simp only [doorbell_run, hfall]
    rw [doorbell_run_append]
    rw [hhold]
    simp only [doorbell_run, hrel]
    have hrep : List.replicate (us.length + 2) ([] : List DoorbellAct)
        = [] :: (List.replicate us.length [] ++ [[]]) := by
      rw [List.replicate_succ, List.replicate_succ']
    rw [hrep]

/-- Witness for C4 amended: press at 1000 ms with one held sample at
2000 ms, release at 1200 ms held duration 200 ms (event emitted), and the
same cycle released at 1050 ms (no event). -/
theorem doorbell_press_confirmed_amended_witness :
    ((doorbell_is_playing idlePlayState = false ∧ 0 < 1000 ∧
        1000 + DOORBELL_LONG_PRESS_TIME_MS < U32 ∧
        (∀ u ∈ [2000], u ≤ 1000 + DOORBELL_LONG_PRESS_TIME_MS) ∧
        1000 + DOORBELL_SOFTWARE_DEBOUNCE_TIME_MS < 1200) ∧
      (doorbell_run ⟨1, 1000, []⟩ (pressCycleEnvs 1000 [2000] 1200)
          ⟨true, 0, idlePlayState, [], false⟩).2
        = List.replicate 2 [] ++
          [[DoorbellAct.publish (mqttTopicPress ⟨1, 1000, []⟩) mqttMsg true,
            DoorbellAct.audioBegin true,
            DoorbellAct.publish (mqttTopicPlayAudio ⟨1, 1000, []⟩) mqttMsg true,
            DoorbellAct.historyWrite EVENT_DOORBELL]]) ∧
    (1050 ≤ 1000 + DOORBELL_SOFTWARE_DEBOUNCE_TIME_MS ∧
      (doorbell_run ⟨1, 1000, []⟩ (pressCycleEnvs 1000 [2000] 1050)
          ⟨true, 0, idlePlayState, [], false⟩).2 = List.replicate 3 []) :=
  ⟨⟨⟨by decide, by decide, by decide, by decide, by decide⟩,
    (doorbell_press_confirmed_amended ⟨1, 1000, []⟩ 1000 1200 [2000] idlePlayState [] false
      (by decide) (by decide) (by decide) (by decide)).1 (by decide)⟩,
   ⟨by decide,
    (doorbell_press_confirmed_amended ⟨1, 1000, []⟩ 1000 1050 [2000] idlePlayState [] false
      (by decide) (by decide) (by decide) (by decide)).2 (by decide)⟩⟩

/-- Tick sequence of a long-press cycle: a falling-edge tick at t0, held
ticks at the given times, a held tick at w (intended past the long-press
threshold), further held ticks, and a rising-edge (release) tick at
t1. -/
def longPressCycleEnvs (t0 : Nat) (us : List Nat) (w : Nat) (vs : List Nat) (t1 : Nat) :
    List DoorbellEnv :=
  mkEnv false t0 ::
    (us.map (mkEnv false) ++ (mkEnv false w :: (vs.map (mkEnv false) ++ [mkEnv true t1])))

/-- C5 counterexample: a press held for exactly the long-press threshold
(pressed at 1000 ms, released at 6000 ms, duration 5000 ms) emits no
long-press event; instead the release emits a confirmed-press event. The
comparison in the code is strict, so the claimed behaviour for durations
from longPressThresholdMs up fails at exactly 5000 ms. -/
theorem doorbell_long_press_boundary_cex :
    (doorbell_run ⟨1, 1000, []⟩ (pressCycleEnvs 1000 [] 6000)
        ⟨true, 0, idlePlayState, [], false⟩).2
      = [[], [DoorbellAct.publish (mqttTopicPress ⟨1, 1000, []⟩) mqttMsg true,
              DoorbellAct.audioBegin true,
              DoorbellAct.publish (mqttTopicPlayAudio ⟨1, 1000, []⟩) mqttMsg true,
              DoorbellAct.historyWrite EVENT_DOORBELL]] ∧
    1000 + DOORBELL_LONG_PRESS_TIME_MS ≤ 6000 := by
  refine ⟨by decide, by decide⟩

/-- C5 amended: when a tick samples the line still pressed strictly later
than the long-press threshold after the press opened (held samples up to
then being within the threshold), exactly one long-press event fires at
that tick: one longPress-topic publish and one CourtyardLampLongPress
history record; the press timestamp is cleared at that tick, every
remaining held tick is silent, and no confirmed-press event follows at
release. A hold of exactly the threshold fires a confirmed press instead
(see the counterexample). -/
theorem doorbell_long_press_once_amended (cfg : DoorbellCfg) (t0 w t1 : Nat)
    (us vs : List Nat) (ps : PlayState) (file : List AString) (sub : Bool)
    (hp : doorbell_is_playing ps = false)
    (ht0 : 0 < t0) (hw32 : t0 + DOORBELL_LONG_PRESS_TIME_MS < U32)
    (hus : ∀ u ∈ us, u ≤ t0 + DOORBELL_LONG_PRESS_TIME_MS)
    (hlong : t0 + DOORBELL_LONG_PRESS_TIME_MS < w) :
    (doorbell_run cfg (longPressCycleEnvs t0 us w vs t1) ⟨true, 0, ps, file, sub⟩).2
      = List.replicate (us.length + 1) [] ++
        ([[DoorbellAct.publish (mqttTopicLongPress cfg) mqttMsg true,
           DoorbellAct.historyWrite EVENT_COURTYARD_LAMP]] ++
         List.replicate (vs.length + 1) []) ∧
    (doorbell_run cfg (mkEnv false t0 :: (us.map (mkEnv false) ++ [mkEnv false w]))
        ⟨true, 0, ps, file, sub⟩).1.switch_press_timestamp_ms = 0 := by
  have hfall := doorbell_task_falling cfg t0 ps file sub hp ht0 hw32
  have hhold := doorbell_run_hold cfg t0 ps file hp ht0 hw32 us hus
  have hfire := doorbell_task_long_fire cfg t0 w ps file hp ht0 hw32 hlong
  have hvs := doorbell_run_hold_cleared cfg ps
    (doorbell_update_history [] EVENT_COURTYARD_LAMP file) hp vs
  have hrel := doorbell_task_release_cleared cfg t1 ps
    (doorbell_update_history [] EVENT_COURTYARD_LAMP file) hp
  constructor
  · unfold longPressCycleEnvs
    simp only [doorbell_run, hfall]
    rw [doorbell_run_append]
    rw [hhold]
    simp only [doorbell_run, hfire]
    rw [doorbell_run_append]
    rw [hvs]
    simp only [doorbell_run, hrel]
    simp [List.replicate_succ, List.replicate_succ']
    rw [← List.replicate_succ', List.replicate_succ]
  · simp only [doorbell_run, hfall]
    rw [doorbell_run_append]
    rw [hhold]
    simp only [doorbell_run, hfire]

/-- Witness for C5 amended: press at 1000 ms, one held sample at 3000 ms,
the long press firing at a sample at 6100 ms, one further held sample at
6200 ms, release at 7000 ms. -/
theorem doorbell_long_press_once_amended_witness :
    (doorbell_is_playing idlePlayState = false ∧ 0 < 1000 ∧
      1000 + DOORBELL_LONG_PRESS_TIME_MS < U32 ∧
      (∀ u ∈ [3000], u ≤ 1000 + DOORBELL_LONG_PRESS_TIME_MS) ∧
      1000 + DOORBELL_LONG_PRESS_TIME_MS < 6100) ∧
    ((doorbell_run ⟨1, 1000, []⟩ (longPressCycleEnvs 1000 [3000] 6100 [6200] 7000)
        ⟨true, 0, idlePlayState, [], false⟩).2
      = List.replicate 2 [] ++
        ([[DoorbellAct.publish (mqttTopicLongPress ⟨1, 1000, []⟩) mqttMsg true,
           DoorbellAct.historyWrite EVENT_COURTYARD_LAMP]] ++
         List.replicate 2 []) ∧
     (doorbell_run ⟨1, 1000, []⟩
        (mkEnv false 1000 :: ([3000].map (mkEnv false) ++ [mkEnv false 6100]))
        ⟨true, 0, idlePlayState, [], false⟩).1.switch_press_timestamp_ms = 0) :=
  ⟨⟨by decide, by decide, by decide, by decide, by decide⟩,
   doorbell_long_press_once_amended ⟨1, 1000, []⟩ 1000 6100 7000 [3000] [6200]
     idlePlayState [] false (by decide) (by decide) (by decide) (by decide) (by decide)⟩

/-- Playback-only run of doorbell_task_audio over a tick list, collecting
the clock readings of the ticks at which the decode pipeline is
restarted (audio_gen begin invocations). -/
def runAudio (cfg : DoorbellCfg) : List DoorbellEnv → PlayState → List Nat →
    PlayState × List Nat
  | [], ps, bts => (ps, bts)
  | env :: rest, ps, bts =>
      runAudio cfg rest (doorbell_task_audio env cfg ps).1
        (if (doorbell_task_audio env cfg ps).2.countP isBeginAct ≠ 0
          then bts ++ [env.now] else bts)

/-- Invariant of a three-replay session (playCount 3, delay 1000): the
collected begin times are strictly more than 1000 ms apart, all at or
before the last seen clock reading, and the playback state is in one of
the six phases of the session, with the begin count determined by the
phase and, while waiting for a replay deadline, the deadline at least
1000 ms after every begin so far. -/
def Inv6 (ps : PlayState) (bts : List Nat) (tmax : Nat) : Prop :=
  List.Chain' (fun a b => a + 1000 < b) bts ∧
  (∀ b ∈ bts, b ≤ tmax) ∧
  ((ps.replay_timestamp_ms = 0 ∧ ps.replay_cntr = 3 ∧ bts.length = 1) ∨
   (ps.audioRunning = false ∧ ps.replay_cntr = 2 ∧ ps.replay_timestamp_ms ≠ 0 ∧
     bts.length = 1 ∧ ∀ b ∈ bts, b + 1000 ≤ ps.replay_timestamp_ms) ∨
   (ps.replay_timestamp_ms = 0 ∧ ps.replay_cntr = 2 ∧ bts.length = 2) ∨
   (ps.audioRunning = false ∧ ps.replay_cntr = 1 ∧ ps.replay_timestamp_ms ≠ 0 ∧
     bts.length = 2 ∧ ∀ b ∈ bts, b + 1000 ≤ ps.replay_timestamp_ms) ∨
   (ps.replay_timestamp_ms = 0 ∧ ps.replay_cntr = 1 ∧ bts.length = 3) ∨
   (ps.audioRunning = false ∧ ps.replay_cntr = 0 ∧ ps.replay_timestamp_ms = 0 ∧
     bts.length = 3))

lemma chain'_snoc_of_lt {bts : List Nat} {v : Nat}
    (hchain : List.Chain' (fun a b => a + 1000 < b) bts)
    (hlast : ∀ b ∈ bts, b + 1000 < v) :
    List.Chain' (fun a b => a + 1000 < b) (bts ++ [v]) := by
  rw [List.chain'_append]
  refine ⟨hchain, List.chain'_singleton v, ?_⟩
  intro x hx y hy
  simp at hy
  subst hy
  rcases List.mem_getLast?_eq_getLast hx with ⟨hne, hxe⟩
  rw [hxe]
  exact hlast _ (List.getLast_mem hne)

lemma inv6_step (cfg : DoorbellCfg) (hd : cfg.audioPlayDelay_ms = 1000)
    (env : DoorbellEnv) (_hb : env.beginOk = true) (hw : env.now + 1000 < U32)
    (ps : PlayState) (bts : List Nat) (tmax : Nat)
    (hI : Inv6 ps bts tmax) (hmono : tmax ≤ env.now) :
    Inv6 (doorbell_task_audio env cfg ps).1
      (if (doorbell_task_audio env cfg ps).2.countP isBeginAct ≠ 0
        then bts ++ [env.now] else bts) env.now := by
  rcases hI with ⟨hchain, hbnd, hcase⟩
  have hbnd2 : ∀ b ∈ bts, b ≤ env.now := fun b hbm => le_trans (hbnd b hbm) hmono
  have hmod : (env.now + cfg.audioPlayDelay_ms) % U32 = env.now + 1000 := by
    rw [hd]; exact Nat.mod_eq_of_lt hw
  by_cases hr : ps.audioRunning = true
  · -- generator running: one loop step, no begin, counters untouched
    have htick : doorbell_task_audio env cfg ps
        = ({ replay_cntr := ps.replay_cntr, replay_timestamp_ms := ps.replay_timestamp_ms,
             audioRunning := env.loopRuns }, []) := by
      unfold doorbell_task_audio
      simp [hr]
    rw [htick]
    rw [if_neg (by simp [isBeginAct])]
    refine ⟨hchain, hbnd2, ?_⟩
    rcases hcase with h | h | h | h | h | h
    · exact Or.inl ⟨h.1, h.2.1, h.2.2⟩
    · rw [h.1] at hr; exact absurd hr (by simp)
    · exact Or.inr (Or.inr (Or.inl ⟨h.1, h.2.1, h.2.2⟩))
    · rw [h.1] at hr; exact absurd hr (by simp)
    · exact Or.inr (Or.inr (Or.inr (Or.inr (Or.inl ⟨h.1, h.2.1, h.2.2⟩))))
    · rw [h.1] at hr; exact absurd hr (by simp)
  · have hrf : ps.audioRunning = false := by
      cases hx : ps.audioRunning
      · rfl
      · exact absurd hx hr
    by_cases ht : ps.replay_timestamp_ms ≠ 0
    · by_cases hlt : ps.replay_timestamp_ms < env.now
      · -- due replay deadline: restart the pipeline, record a begin
        have htick : doorbell_task_audio env cfg ps
            = ({ replay_cntr := ps.replay_cntr, replay_timestamp_ms := 0,
                 audioRunning := env.beginOk }, [DoorbellAct.audioBegin env.beginOk]) := by
          unfold doorbell_task_audio
          simp [hrf, ht, hlt]
        rw [htick]
        rcases hcase with h | h | h | h | h | h
        · exact absurd h.1 ht
        · -- waiting before the second begin
          have hgap : ∀ b ∈ bts, b + 1000 < env.now := fun b hbm =>
            lt_of_le_of_lt (h.2.2.2.2 b hbm) hlt
          refine ⟨?_, ?_, ?_⟩
          · rw [if_pos (by simp [isBeginAct])]
            exact chain'_snoc_of_lt hchain hgap
          · rw [if_pos (by simp [isBeginAct])]
            intro b hbm
            rcases List.mem_append.mp hbm with hb1 | hb2
            · exact hbnd2 b hb1
            · simp at hb2; omega
          · rw [if_pos (by simp [isBeginAct])]
            refine Or.inr (Or.inr (Or.inl ?_))
            simp [h.2.1, h.2.2.2.1]
        · exact absurd h.1 ht
        · -- waiting before the third begin
          have hgap : ∀ b ∈ bts, b + 1000 < env.now := fun b hbm =>
            lt_of_le_of_lt (h.2.2.2.2 b hbm) hlt
          refine ⟨?_, ?_, ?_⟩
          · rw [if_pos (by simp [isBeginAct])]
            exact chain'_snoc_of_lt hchain hgap
          · rw [if_pos (by simp [isBeginAct])]
            intro b hbm
            rcases List.mem_append.mp hbm with hb1 | hb2
            · exact hbnd2 b hb1
            · simp at hb2; omega
          · rw [if_pos (by simp [isBeginAct])]
            refine Or.inr (Or.inr (Or.inr (Or.inr (Or.inl ?_))))
            simp [h.2.1, h.2.2.2.1]
        · exact absurd h.1 ht
        · exact absurd h.2.2.1 ht
      · -- deadline not yet due: state unchanged
        have htick : doorbell_task_audio env cfg ps = (ps, []) := by
          unfold doorbell_task_audio
          simp [hrf, ht, hlt]
        rw [htick]
        rw [if_neg (by simp [isBeginAct])]
        exact ⟨hchain, hbnd2, hcase⟩
    · have ht0 : ps.replay_timestamp_ms = 0 := by
        by_contra hx
        exact ht hx
      by_cases hc : ps.replay_cntr ≠ 0
      · -- a replay just finished: account it
        rcases hcase with h | h | h | h | h | h
        · -- three replays remain: schedule the second
          have htick : doorbell_task_audio env cfg ps
              = ({ replay_cntr := 2, replay_timestamp_ms := env.now + 1000,
                   audioRunning := ps.audioRunning }, [DoorbellAct.audioStop]) := by
            unfold doorbell_task_audio
            simp [hrf, ht0, h.2.1, hmod]
          rw [htick]
          simp only [List.countP_cons, List.countP_nil, isBeginAct, ne_eq]
          rw [if_neg (by simp [isBeginAct])]
          refine ⟨hchain, hbnd2, Or.inr (Or.inl ?_)⟩
          refine ⟨hrf, rfl, ?_, h.2.2, ?_⟩
          · show env.now + 1000 ≠ 0
            omega
          · intro b hbm
            have hble := hbnd2 b hbm
            show b + 1000 ≤ env.now + 1000
            omega
        · exact absurd h.2.2.1 ht
        · -- two replays remain: schedule the third
          have htick : doorbell_task_audio env cfg ps
              = ({ replay_cntr := 1, replay_timestamp_ms := env.now + 1000,
                   audioRunning := ps.audioRunning }, [DoorbellAct.audioStop]) := by
            unfold doorbell_task_audio
            simp [hrf, ht0, h.2.1, hmod]
          rw [htick]
          simp only [List.countP_cons, List.countP_nil, isBeginAct, ne_eq]
          rw [if_neg (by simp [isBeginAct])]
          refine ⟨hchain, hbnd2, Or.inr (Or.inr (Or.inr (Or.inl ?_)))⟩
          refine ⟨hrf, rfl, ?_, h.2.2, ?_⟩
          · show env.now + 1000 ≠ 0
            omega
          · intro b hbm
            have hble := hbnd2 b hbm
            show b + 1000 ≤ env.now + 1000
            omega
        · exact absurd h.2.2.1 ht
        · -- the last replay finished: fall idle
          have htick : doorbell_task_audio env cfg ps
              = ({ replay_cntr := 0, replay_timestamp_ms := 0,
                   audioRunning := ps.audioRunning }, [DoorbellAct.audioStop]) := by
            unfold doorbell_task_audio
            simp [hrf, ht0, h.2.1]
          rw [htick]
          simp only [List.countP_cons, List.countP_nil, isBeginAct, ne_eq]
          rw [if_neg (by simp [isBeginAct])]
          exact ⟨hchain, hbnd2,
            Or.inr (Or.inr (Or.inr (Or.inr (Or.inr ⟨hrf, rfl, rfl, h.2.2⟩))))⟩
        · rw [h.2.1] at hc
          exact absurd rfl hc
      · -- idle: nothing to do
        have hc0 : ps.replay_cntr = 0 := by
          by_contra hx
          exact hc hx
        have htick : doorbell_task_audio env cfg ps = (ps, []) := by
          unfold doorbell_task_audio
          simp [hrf, ht0, hc0]
        rw [htick]
        rw [if_neg (by simp [isBeginAct])]
        refine ⟨hchain, hbnd2, ?_⟩
        rcases hcase with h | h | h | h | h | h
        · rw [h.2.1] at hc0; simp at hc0
        · exact absurd h.2.2.1 ht
        · rw [h.2.1] at hc0; simp at hc0
        · exact absurd h.2.2.1 ht
        · rw [h.2.1] at hc0; simp at hc0
        · exact Or.inr (Or.inr (Or.inr (Or.inr (Or.inr h))))

lemma chain_le_of_append {a : Nat} :
    ∀ {l1 l2 : List Nat}, List.Chain (fun x y => x ≤ y) a (l1 ++ l2) →
      List.Chain (fun x y => x ≤ y) a l1 := by
  intro l1
  induction l1 generalizing a with
  | nil => intro l2 _; exact List.Chain.nil
  | cons x rest ih =>
      intro l2 h
      rw [List.cons_append, List.chain_cons] at h
      exact List.Chain.cons h.1 (ih h.2)

lemma inv6_run (cfg : DoorbellCfg) (hd : cfg.audioPlayDelay_ms = 1000) :
    ∀ (ticks : List DoorbellEnv) (ps : PlayState) (bts : List Nat) (tmax : Nat),
      Inv6 ps bts tmax →
      List.Chain (fun a b => a ≤ b) tmax (ticks.map (fun e => e.now)) →
      (∀ e ∈ ticks, e.beginOk = true ∧ e.now + 1000 < U32) →
      ∃ t2, Inv6 (runAudio cfg ticks ps bts).1 (runAudio cfg ticks ps bts).2 t2 := by
  intro ticks
  induction ticks with
  | nil => intro ps bts tmax hI _ _; exact ⟨tmax, hI⟩
  | cons e rest ih =>
      intro ps bts tmax hI hchain hok
      rw [List.map_cons, List.chain_cons] at hchain
      have hstep := inv6_step cfg hd e (hok e (by simp)).1 (hok e (by simp)).2 ps bts tmax hI
        hchain.1
      simp only [runAudio]
      exact ih _ _ e.now hstep hchain.2 (fun x hx => hok x (by simp [hx]))

lemma inv6_length_le {ps : PlayState} {bts : List Nat} {tmax : Nat} (hI : Inv6 ps bts tmax) :
    bts.length ≤ 3 := by
  rcases hI.2.2 with h | h | h | h | h | h <;> omega

lemma inv6_idle {ps : PlayState} {bts : List Nat} {tmax : Nat} (hI : Inv6 ps bts tmax)
    (hp : doorbell_is_playing ps = false) : bts.length = 3 := by
  rcases (doorbell_is_playing_eq_false_iff ps).mp hp with ⟨hr, ht, hc⟩
  rcases hI.2.2 with h | h | h | h | h | h
  · rw [hc] at h; omega
  · exact absurd ht h.2.2.1
  · rw [hc] at h; omega
  · exact absurd ht h.2.2.1
  · rw [hc] at h; omega
  · exact h.2.2.2

lemma inv6_chain {ps : PlayState} {bts : List Nat} {tmax : Nat} (hI : Inv6 ps bts tmax) :
    List.Chain' (fun a b => a + 1000 ≤ b) bts :=
  List.Chain'.imp (fun _ _ hab => le_of_lt hab) hI.1

lemma inv6_start (t0 : Nat) :
    Inv6 { replay_cntr := 3, replay_timestamp_ms := 0, audioRunning := true } [t0] t0 := by
  refine ⟨List.chain'_singleton t0, ?_, Or.inl ⟨rfl, rfl, rfl⟩⟩
  intro b hb
  simp at hb
  omega

/-- C6: with playCount 3 and inter-replay delay 1000 ms, one successful
doorbell_play from idle loads three replays and starts the generator, and
over any subsequent sequence of playback ticks with nondecreasing clock
readings (begin succeeding, no uint32 wrap of the deadline sum): at most
3 decode-session starts ever occur (the play plus the recorded restarts);
if the run ends idle, exactly 3 occurred; consecutive start times are at
least 1000 ms apart; and after any prefix of the run after which
doorbell_is_playing is false, all 3 starts have already happened, so the
engine is never idle before the third session has completed. -/
theorem doorbell_three_replays (cfg : DoorbellCfg) (t0 : Nat) (ticks : List DoorbellEnv)
    (e0 : DoorbellEnv)
    (hc : cfg.audioPlayCount = 3) (hd : cfg.audioPlayDelay_ms = 1000)
    (he0 : e0.beginOk = true)
    (hok : ∀ e ∈ ticks, e.beginOk = true ∧ e.now + 1000 < U32)
    (hchain : List.Chain (fun a b => a ≤ b) t0 (ticks.map (fun e => e.now))) :
    (doorbell_play e0 cfg idlePlayState).1
        = { replay_cntr := 3, replay_timestamp_ms := 0, audioRunning := true } ∧
    (runAudio cfg ticks { replay_cntr := 3, replay_timestamp_ms := 0, audioRunning := true }
        [t0]).2.length ≤ 3 ∧
    (doorbell_is_playing
        (runAudio cfg ticks { replay_cntr := 3, replay_timestamp_ms := 0, audioRunning := true }
          [t0]).1 = false →
      (runAudio cfg ticks { replay_cntr := 3, replay_timestamp_ms := 0, audioRunning := true }
        [t0]).2.length = 3) ∧
    List.Chain' (fun a b => a + 1000 ≤ b)
      (runAudio cfg ticks { replay_cntr := 3, replay_timestamp_ms := 0, audioRunning := true }
        [t0]).2 ∧
    (∀ p q, ticks = p ++ q →
      doorbell_is_playing
          (runAudio cfg p { replay_cntr := 3, replay_timestamp_ms := 0, audioRunning := true }
            [t0]).1 = false →
      (runAudio cfg p { replay_cntr := 3, replay_timestamp_ms := 0, audioRunning := true }
        [t0]).2.length = 3) := by
  have hfull := inv6_run cfg hd ticks
    { replay_cntr := 3, replay_timestamp_ms := 0, audioRunning := true } [t0] t0
    (inv6_start t0) hchain hok
  rcases hfull with ⟨t2, hI2⟩
  refine ⟨?_, inv6_length_le hI2, fun hidle => inv6_idle hI2 hidle, inv6_chain hI2, ?_⟩
  · unfold doorbell_play
    simp [doorbell_is_playing, idlePlayState, he0, hc]
  · intro p q hpq hidle
    have hokp : ∀ e ∈ p, e.beginOk = true ∧ e.now + 1000 < U32 := by
      intro e he
      exact hok e (by rw [hpq]; exact List.mem_append.mpr (Or.inl he))
    have hchp : List.Chain (fun a b => a ≤ b) t0 (p.map (fun e => e.now)) := by
      rw [hpq, List.map_append] at hchain
      exact chain_le_of_append hchain
    have hpre := inv6_run cfg hd p
      { replay_cntr := 3, replay_timestamp_ms := 0, audioRunning := true } [t0] t0
      (inv6_start t0) hchp hokp
    rcases hpre with ⟨t3, hI3⟩
    exact inv6_idle hI3 hidle

/-- Witness for C6: a run of eight ticks that plays the file three times
(starts at 1000, 3700 and 5000 ms) and ends idle. -/
theorem doorbell_three_replays_witness :
    ((⟨3, 1000, []⟩ : DoorbellCfg).audioPlayCount = 3 ∧
      (⟨3, 1000, []⟩ : DoorbellCfg).audioPlayDelay_ms = 1000 ∧
      (mkAudioEnv 0 true).beginOk = true ∧
      (∀ e ∈ [mkAudioEnv 1000 false, mkAudioEnv 2500 false, mkAudioEnv 3700 false,
              mkAudioEnv 3800 false, mkAudioEnv 3900 false, mkAudioEnv 5000 false,
              mkAudioEnv 5100 false, mkAudioEnv 5200 false],
        e.beginOk = true ∧ e.now + 1000 < U32) ∧
      List.Chain (fun a b => a ≤ b) 1000
        (([mkAudioEnv 1000 false, mkAudioEnv 2500 false, mkAudioEnv 3700 false,
           mkAudioEnv 3800 false, mkAudioEnv 3900 false, mkAudioEnv 5000 false,
           mkAudioEnv 5100 false, mkAudioEnv 5200 false]).map (fun e => e.now))) ∧
    ((doorbell_play (mkAudioEnv 0 true) ⟨3, 1000, []⟩ idlePlayState).1
        = { replay_cntr := 3, replay_timestamp_ms := 0, audioRunning := true } ∧
      (runAudio ⟨3, 1000, []⟩
        [mkAudioEnv 1000 false, mkAudioEnv 2500 false, mkAudioEnv 3700 false,
         mkAudioEnv 3800 false, mkAudioEnv 3900 false, mkAudioEnv 5000 false,
         mkAudioEnv 5100 false, mkAudioEnv 5200 false]
        { replay_cntr := 3, replay_timestamp_ms := 0, audioRunning := true } [1000]).2
        = [1000, 3700, 5000] ∧
      doorbell_is_playing
        (runAudio ⟨3, 1000, []⟩
          [mkAudioEnv 1000 false, mkAudioEnv 2500 false, mkAudioEnv 3700 false,
           mkAudioEnv 3800 false, mkAudioEnv 3900 false, mkAudioEnv 5000 false,
           mkAudioEnv 5100 false, mkAudioEnv 5200 false]
          { replay_cntr := 3, replay_timestamp_ms := 0, audioRunning := true } [1000]).1
        = false ∧
      (runAudio ⟨3, 1000, []⟩
        [mkAudioEnv 1000 false, mkAudioEnv 2500 false, mkAudioEnv 3700 false,
         mkAudioEnv 3800 false, mkAudioEnv 3900 false, mkAudioEnv 5000 false,
         mkAudioEnv 5100 false, mkAudioEnv 5200 false]
        { replay_cntr := 3, replay_timestamp_ms := 0, audioRunning := true } [1000]).2.length
        = 3) :=
  ⟨⟨by decide, by decide, by decide, by decide,
    by simp [mkAudioEnv, List.chain_cons]⟩,
   (doorbell_three_replays ⟨3, 1000, []⟩ 1000
      [mkAudioEnv 1000 false, mkAudioEnv 2500 false, mkAudioEnv 3700 false,
       mkAudioEnv 3800 false, mkAudioEnv 3900 false, mkAudioEnv 5000 false,
       mkAudioEnv 5100 false, mkAudioEnv 5200 false]
      (mkAudioEnv 0 true) (by decide) (by decide) (by decide) (by decide)
      (by simp [mkAudioEnv, List.chain_cons])).1,
   by decide,
   by decide,
   (doorbell_three_replays ⟨3, 1000, []⟩ 1000
      [mkAudioEnv 1000 false, mkAudioEnv 2500 false, mkAudioEnv 3700 false,
       mkAudioEnv 3800 false, mkAudioEnv 3900 false, mkAudioEnv 5000 false,
       mkAudioEnv 5100 false, mkAudioEnv 5200 false]
      (mkAudioEnv 0 true) (by decide) (by decide) (by decide) (by decide)
      (by simp [mkAudioEnv, List.chain_cons])).2.2.1
     (by decide)⟩
